import Mathlib

/-!
# Verification of the lcsc-grabber conversion core

A shallow embedding, over `ℚ`, of the conversion pipeline of the
`lcsc-grabber` plugin: the EasyEDA shape-string parsers for symbols
(`converters/symbol_converter.py`) and footprints
(`converters/footprint_converter.py`), the shared domain model
(`api/models.py`), the geometry helpers (`utils/geometry.py`) and the 3D
placement heuristic with its override store (`kicad/model3d_config.py`).

Conventions of the embedding:
* Python floats are modelled by `ℚ`; all arithmetic of the source is exact
  rational arithmetic on the inputs exercised here.
* Payloads enter the converters as the extracted list of shape-command
  strings (the source additionally unwraps a JSON record and splits a
  joined string on the delimiter; claims below concern the shape list).
* Python string primitives (`split`, `strip`, `upper`, `lower`,
  `startswith`, `isdigit`, `float(...)`) are re-implemented below over
  `List Char` so that every definition is executable and
  kernel-reducible.  `float(...)` is modelled for the decimal literals
  the shape grammar carries (sign, digits, fraction, exponent); special
  forms such as `inf`/`nan` fall back to the default, as irrelevant here.
-/

namespace LcscGrabber

/-! ## Python string primitives -/

/-- Python `str.strip()` (default whitespace stripping). -/
def pyStrip (s : String) : String :=
  String.mk (((s.data.dropWhile Char.isWhitespace).reverse.dropWhile Char.isWhitespace).reverse)

/-- Python `str.upper()` on the ASCII identifiers used by the grammar. -/
def pyUpper (s : String) : String :=
  String.mk (s.data.map Char.toUpper)

/-- Python `str.lower()` on the ASCII identifiers used by the grammar. -/
def pyLower (s : String) : String :=
  String.mk (s.data.map Char.toLower)

/-- Python `str.startswith(pre)`. -/
def pyStarts (s t : String) : Bool :=
  t.data.isPrefixOf s.data

/-- Python `str.isdigit()` for ASCII text: nonempty and all digits. -/
def pyIsDigit (s : String) : Bool :=
  !s.data.isEmpty && s.data.all Char.isDigit

/-- Python substring test `needle in hay`. -/
def pySubstr (needle hay : String) : Bool :=
  (List.range (hay.data.length + 1)).any (fun i => needle.data.isPrefixOf (hay.data.drop i))

/-- Auxiliary for `pySplitChar`: accumulates the current field (reversed). -/
def pySplitCharAux (sep : Char) : List Char → List Char → List String
  | [], cur => [String.mk cur.reverse]
  | c :: rest, cur =>
    if c = sep then String.mk cur.reverse :: pySplitCharAux sep rest []
    else pySplitCharAux sep rest (c :: cur)

/-- Python `s.split(sep)` for a one-character separator (`"~"` in the
shape grammar): empty fields are kept, `"".split(sep) = [""]`. -/
def pySplitChar (sep : Char) (s : String) : List String :=
  pySplitCharAux sep s.data []

/-! ## `float(...)` (numeric field parsing) -/

/-- Numeric value of an ASCII digit. -/
def digVal (c : Char) : Nat := c.toNat - 48

/-- Value of a digit run, most significant first. -/
def natOfDigits (l : List Char) : Nat :=
  l.foldl (fun a c => a * 10 + digVal c) 0

/-- Consume an optional sign; `true` means negative. -/
def splitSign : List Char → Bool × List Char
  | '-' :: rest => (true, rest)
  | '+' :: rest => (false, rest)
  | l => (false, l)

/-- Split a leading digit run from the rest. -/
def takeDigits (l : List Char) : List Char × List Char :=
  (l.takeWhile Char.isDigit, l.dropWhile Char.isDigit)

/-- Mantissa of a float literal: `digits [. digits]` with at least one
digit overall; returns its value and the unconsumed tail. -/
def parseMantissa (l : List Char) : Option (ℚ × List Char) :=
  let (ip, r1) := takeDigits l
  match r1 with
  | '.' :: r2 =>
    let (fp, r3) := takeDigits r2
    if ip.isEmpty && fp.isEmpty then none
    else some ((natOfDigits ip : ℚ) + (natOfDigits fp : ℚ) / ((10 : ℚ) ^ fp.length), r3)
  | _ => if ip.isEmpty then none else some ((natOfDigits ip : ℚ), r1)

/-- The exact rational value of a Python float literal, or `none` when the
text is not a float literal. -/
def parseFloatCore (s : String) : Option ℚ :=
  let (neg, r0) := splitSign (pyStrip s).data
  match parseMantissa r0 with
  | none => none
  | some (m, r1) =>
    let signed := fun (v : ℚ) => if neg then -v else v
    match r1 with
    | [] => some (signed m)
    | 'e' :: r2 =>
      let (eneg, r3) := splitSign r2
      let (ed, r4) := takeDigits r3
      if ed.isEmpty || !r4.isEmpty then none
      else some (signed (if eneg then m / (10 : ℚ) ^ natOfDigits ed else m * (10 : ℚ) ^ natOfDigits ed))
    | 'E' :: r2 =>
      let (eneg, r3) := splitSign r2
      let (ed, r4) := takeDigits r3
      if ed.isEmpty || !r4.isEmpty then none
      else some (signed (if eneg then m / (10 : ℚ) ^ natOfDigits ed else m * (10 : ℚ) ^ natOfDigits ed))
    | _ => none

/-- `utils/geometry.py` `parse_float(value, default)`: never fails, returns
`default` on malformed input. -/
def parseFloat (s : String) (default : ℚ) : ℚ :=
  (parseFloatCore s).getD default

/-! ## `re.split(r'[,\s]+', s.strip())` (point-list tokenization) -/

/-- A separator character of the point-list grammar: comma or whitespace. -/
def isSepChar (c : Char) : Bool := c == ',' || c.isWhitespace

/-- Auxiliary for `splitFields`: the maximal runs of non-separator
characters, in order. -/
def sepWordsAux : List Char → List Char → List String
  | [], cur => if cur.isEmpty then [] else [String.mk cur.reverse]
  | c :: rest, cur =>
    if isSepChar c then
      if cur.isEmpty then sepWordsAux rest []
      else String.mk cur.reverse :: sepWordsAux rest []
    else sepWordsAux rest (c :: cur)

/-- `re.split(r'[,\s]+', s.strip())` as used by both point-list parsers:
maximal separator runs are single boundaries, and a run touching either
end contributes an empty field there (exactly `re.split`'s behavior). -/
def splitFields (s : String) : List String :=
  let cs := (pyStrip s).data
  match cs with
  | [] => [""]
  | c :: _ =>
    (if isSepChar c then [""] else []) ++ sepWordsAux cs [] ++
    (if isSepChar (cs.getLastD ' ') then [""] else [])

/-- The `for i in range(0, len(values) - 1, 2)` pairing of tokens. -/
def pairUp : List String → List (String × String)
  | a :: b :: rest => (a, b) :: pairUp rest
  | _ => []

/-! ## Domain model (`api/models.py`) -/

/-- `models.PinType`. -/
inductive PinType
  | input | output | bidirectional | tri_state | passive | free
  | unspecified | power_in | power_out | open_collector | open_emitter
  | no_connect
deriving DecidableEq, Repr

/-- `models.PinShape`. -/
inductive PinShape
  | line | inverted | clock | inverted_clock | input_low | clock_low
  | output_low | edge_clock_high | non_logic
deriving DecidableEq, Repr

/-- `models.PadShape`. -/
inductive PadShape
  | rect | circle | oval | roundrect | trapezoid | custom
deriving DecidableEq, Repr

/-- `models.PadType`. -/
inductive PadType
  | smd | thru_hole | npth | connect
deriving DecidableEq, Repr

/-- `models.Point`. -/
structure Point where
  x : ℚ
  y : ℚ
deriving DecidableEq, Repr

/-- `models.SymbolPin`. -/
structure SymbolPin where
  number : String
  name : String
  x : ℚ
  y : ℚ
  length : ℚ
  rotation : ℚ
  pin_type : PinType
  pin_shape : PinShape
  hidden : Bool
  name_visible : Bool
  number_visible : Bool
deriving DecidableEq, Repr

/-- `models.SymbolRectangle`. -/
structure SymbolRectangle where
  x : ℚ
  y : ℚ
  width : ℚ
  height : ℚ
  stroke_width : ℚ
  fill : String
deriving DecidableEq, Repr

/-- `models.SymbolPolyline`. -/
structure SymbolPolyline where
  points : List Point
  stroke_width : ℚ
  fill : String
deriving DecidableEq, Repr

/-- `models.SymbolCircle`. -/
structure SymbolCircle where
  cx : ℚ
  cy : ℚ
  radius : ℚ
  stroke_width : ℚ
  fill : String
deriving DecidableEq, Repr

/-- `models.SymbolArc`. -/
structure SymbolArc where
  cx : ℚ
  cy : ℚ
  radius : ℚ
  start_angle : ℚ
  end_angle : ℚ
  stroke_width : ℚ
deriving DecidableEq, Repr

/-- `models.SymbolText`. -/
structure SymbolText where
  text : String
  x : ℚ
  y : ℚ
  font_size : ℚ
  rotation : ℚ
  h_align : String
  v_align : String
deriving DecidableEq, Repr

/-- `models.EasyEdaSymbol`.  The source field `prefix` is a Lean keyword
and is embedded as `refLetter`. -/
structure EasyEdaSymbol where
  name : String
  refLetter : String
  pins : List SymbolPin
  rectangles : List SymbolRectangle
  polylines : List SymbolPolyline
  circles : List SymbolCircle
  arcs : List SymbolArc
  texts : List SymbolText
  properties : List (String × String)
  offset_x : ℚ
  offset_y : ℚ
  unit_count : Nat
deriving DecidableEq, Repr

/-- A fresh `EasyEdaSymbol(name=component_name)` with the dataclass
defaults of `api/models.py`. -/
def emptySymbol (name : String) : EasyEdaSymbol :=
  ⟨name, "U", [], [], [], [], [], [], [], 0, 0, 1⟩

/-- `models.FootprintPad`. -/
structure FootprintPad where
  number : String
  x : ℚ
  y : ℚ
  width : ℚ
  height : ℚ
  shape : PadShape
  pad_type : PadType
  rotation : ℚ
  drill_size : ℚ
  drill_shape : String
  layers : List String
  roundrect_ratio : ℚ
deriving DecidableEq, Repr

/-- `models.FootprintLine`. -/
structure FootprintLine where
  x1 : ℚ
  y1 : ℚ
  x2 : ℚ
  y2 : ℚ
  layer : String
  stroke_width : ℚ
deriving DecidableEq, Repr

/-- `models.FootprintCircle`. -/
structure FootprintCircle where
  cx : ℚ
  cy : ℚ
  radius : ℚ
  layer : String
  stroke_width : ℚ
  fill : String
deriving DecidableEq, Repr

/-- `models.FootprintArc`. -/
structure FootprintArc where
  cx : ℚ
  cy : ℚ
  radius : ℚ
  start_angle : ℚ
  end_angle : ℚ
  layer : String
  stroke_width : ℚ
deriving DecidableEq, Repr

/-- `models.FootprintPolygon`. -/
structure FootprintPolygon where
  points : List Point
  layer : String
  stroke_width : ℚ
  fill : String
deriving DecidableEq, Repr

/-- `models.FootprintText`. -/
structure FootprintText where
  text : String
  x : ℚ
  y : ℚ
  layer : String
  font_size : ℚ
  thickness : ℚ
  rotation : ℚ
  text_type : String
deriving DecidableEq, Repr

/-- `models.FootprintHole`. -/
structure FootprintHole where
  x : ℚ
  y : ℚ
  diameter : ℚ
deriving DecidableEq, Repr

/-- `models.EasyEdaFootprint`. -/
structure EasyEdaFootprint where
  name : String
  pads : List FootprintPad
  lines : List FootprintLine
  circles : List FootprintCircle
  arcs : List FootprintArc
  polygons : List FootprintPolygon
  texts : List FootprintText
  holes : List FootprintHole
  model_3d_path : Option String
  model_3d_offset : ℚ × ℚ × ℚ
  model_3d_rotation : ℚ × ℚ × ℚ
  model_3d_scale : ℚ × ℚ × ℚ
  bounds : Option (ℚ × ℚ × ℚ × ℚ)
deriving DecidableEq, Repr

/-- A fresh `EasyEdaFootprint(name=component_name)` with the dataclass
defaults of `api/models.py`. -/
def emptyFootprint (name : String) : EasyEdaFootprint :=
  ⟨name, [], [], [], [], [], [], [], none, (0, 0, 0), (0, 0, 0), (1, 1, 1), none⟩

/-- `models.EasyEdaFootprint.has_courtyard`. -/
def hasCourtyard (fp : EasyEdaFootprint) : Bool :=
  fp.lines.any (fun line => line.layer == "F.CrtYd" || line.layer == "B.CrtYd")

/-- `models.EASYEDA_LAYER_MAP`. -/
def EASYEDA_LAYER_MAP : List (String × String) :=
  [("1", "F.Cu"), ("2", "B.Cu"), ("3", "F.SilkS"), ("4", "B.SilkS"),
   ("5", "F.Paste"), ("6", "B.Paste"), ("7", "F.Mask"), ("8", "B.Mask"),
   ("10", "Edge.Cuts"), ("11", "Edge.Cuts"), ("12", "Cmts.User"),
   ("13", "F.Fab"), ("14", "B.Fab"), ("15", "Dwgs.User"),
   ("21", "F.CrtYd"), ("22", "B.CrtYd"), ("99", "F.Fab"),
   ("100", "F.SilkS"), ("101", "F.SilkS")]

/-- `models.get_kicad_layer`. -/
def getKicadLayer (easyedaLayer : String) : String :=
  (EASYEDA_LAYER_MAP.lookup easyedaLayer).getD "F.SilkS"

/-- `models.COMPONENT_PREFIX_MAP` (keyword to reference letter, in the
source's insertion order). -/
def COMPONENT_PREFIX_MAP : List (String × String) :=
  [("resistor", "R"), ("capacitor", "C"), ("inductor", "L"), ("diode", "D"),
   ("led", "D"), ("transistor", "Q"), ("mosfet", "Q"), ("ic", "U"),
   ("mcu", "U"), ("microcontroller", "U"), ("connector", "J"),
   ("switch", "SW"), ("relay", "K"), ("crystal", "Y"), ("oscillator", "Y"),
   ("transformer", "T"), ("fuse", "F"), ("sensor", "U")]

/-- `models.guess_reference_prefix` (renamed: its source name ends in a
Lean keyword): first keyword occurring as a substring of the lowered
description/category text wins, default `"U"`. -/
def guessRefLetter (description category : String) : String :=
  let searchText := pyLower (description ++ " " ++ category)
  match COMPONENT_PREFIX_MAP.find? (fun kv => pySubstr kv.1 searchText) with
  | some kv => kv.2
  | none => "U"

/-! ## Geometry helpers (`utils/geometry.py`) -/

/-- `SymbolConverter.SCALE = FootprintConverter.SCALE = 0.254`. -/
def SCALE : ℚ := 0.254

/-- `geometry.normalize_angle`: the two `while` loops add or subtract
`360` until the angle lies in `[0, 360)`; on `ℚ` this is exactly
subtracting `360` times the floor of `angle / 360`. -/
def normalizeAngle (angle : ℚ) : ℚ :=
  angle - 360 * (⌊angle / 360⌋ : ℚ)

/-- Python `min` over a nonempty list (the `[]` case is never reached by
any caller, which all guard on emptiness first). -/
def listMin : List ℚ → ℚ
  | [] => 0
  | x :: xs => xs.foldl min x

/-- Python `max` over a nonempty list (same remark as `listMin`). -/
def listMax : List ℚ → ℚ
  | [] => 0
  | x :: xs => xs.foldl max x

/-- `geometry.bounding_box`: `(min x, min y, max x, max y)`, degenerate
zero box on empty input. -/
def boundingBox (points : List (ℚ × ℚ)) : ℚ × ℚ × ℚ × ℚ :=
  match points with
  | [] => (0, 0, 0, 0)
  | _ =>
    (listMin (points.map (fun p => p.1)), listMin (points.map (fun p => p.2)),
     listMax (points.map (fun p => p.1)), listMax (points.map (fun p => p.2)))

/-- `geometry.expand_bbox`. -/
def expandBbox (bbox : ℚ × ℚ × ℚ × ℚ) (margin : ℚ) : ℚ × ℚ × ℚ × ℚ :=
  (bbox.1 - margin, bbox.2.1 - margin, bbox.2.2.1 + margin, bbox.2.2.2 + margin)

/-! ## Symbol shape parser (`converters/symbol_converter.py`) -/

/-- `SymbolConverter._parse_point_list`: pairs of scaled coordinates,
`Point(x, -y)`. -/
def parsePointListSym (pointsStr : String) : List Point :=
  (pairUp (splitFields pointsStr)).map
    (fun ab => ⟨parseFloat ab.1 0 * SCALE, -(parseFloat ab.2 0 * SCALE)⟩)

/-- The keyword list of the pin-name window scan. -/
def pinNameKeywords : List String := ["start", "end", "middle", "show", "hide", "0", "1"]

/-- One field passes the pin-name heuristic of
`SymbolConverter._parse_pin`: nonempty, no `#`/`^^` marker, not numeric
once dots and dashes are removed, not a layout keyword, under 30
characters. -/
def pinNameOk (part : String) : Bool :=
  !part.data.isEmpty && !pyStarts part "#" && !pyStarts part "^^" &&
  !pyIsDigit (String.mk (part.data.filter (fun c => !(c == '.') && !(c == '-')))) &&
  !(pinNameKeywords.contains part) &&
  decide (0 < part.data.length) && decide (part.data.length < 30)

/-- The `for i in range(10, min(len(parts), 20))` scan of
`SymbolConverter._parse_pin`: first field of the window that passes
`pinNameOk`, else `""`. -/
def findPinName (parts : List String) : String :=
  (((parts.drop 10).take (min parts.length 20 - 10)).find? pinNameOk).getD ""

/-- `SymbolConverter._parse_pin`. -/
def parsePin (sym : EasyEdaSymbol) (parts : List String) : EasyEdaSymbol :=
  if parts.length < 7 then sym
  else
    let pinNumber := parts.getD 3 "?"
    let x := parseFloat (parts.getD 4 "") 0 * SCALE
    let y := parseFloat (parts.getD 5 "") 0 * SCALE
    let rotation := parseFloat (parts.getD 6 "") 0
    let pinName := findPinName parts
    let pinLength : ℚ := 2.54
    let kicadRotation := normalizeAngle (rotation + 180)
    { sym with pins := sym.pins ++
        [⟨pinNumber, pinName, x, -y, pinLength, kicadRotation,
          PinType.unspecified, PinShape.line, false, true, true⟩] }

/-- `SymbolConverter._parse_rectangle`. -/
def parseRectangleSym (sym : EasyEdaSymbol) (parts : List String) : EasyEdaSymbol :=
  if parts.length < 7 then sym
  else
    let x := parseFloat (parts.getD 1 "") 0 * SCALE
    let y := parseFloat (parts.getD 2 "") 0 * SCALE
    let width := parseFloat (parts.getD 5 "") 0 * SCALE
    let height := parseFloat (parts.getD 6 "") 0 * SCALE
    let strokeWidth :=
      if parts.length > 8 then parseFloat (parts.getD 8 "") 0 * SCALE else 0.254
    { sym with rectangles := sym.rectangles ++
        [⟨x, -y - height, width, height, max strokeWidth 0.1, "none"⟩] }

/-- `SymbolConverter._parse_polyline`. -/
def parsePolylineSym (sym : EasyEdaSymbol) (parts : List String) : EasyEdaSymbol :=
  if parts.length < 2 then sym
  else
    let points := parsePointListSym (parts.getD 1 "")
    if points.isEmpty then sym
    else
      let strokeWidth :=
        if parts.length > 3 then parseFloat (parts.getD 3 "") 0 * SCALE else 0.254
      { sym with polylines := sym.polylines ++
          [⟨points, max strokeWidth 0.1, "none"⟩] }

/-- `SymbolConverter._parse_line`. -/
def parseLineSym (sym : EasyEdaSymbol) (parts : List String) : EasyEdaSymbol :=
  if parts.length < 5 then sym
  else
    let x1 := parseFloat (parts.getD 1 "") 0 * SCALE
    let y1 := parseFloat (parts.getD 2 "") 0 * SCALE
    let x2 := parseFloat (parts.getD 3 "") 0 * SCALE
    let y2 := parseFloat (parts.getD 4 "") 0 * SCALE
    { sym with polylines := sym.polylines ++
        [⟨[⟨x1, -y1⟩, ⟨x2, -y2⟩], 0.254, "none"⟩] }

/-- `SymbolConverter._parse_circle`. -/
def parseCircleSym (sym : EasyEdaSymbol) (parts : List String) : EasyEdaSymbol :=
  if parts.length < 4 then sym
  else
    let cx := parseFloat (parts.getD 1 "") 0 * SCALE
    let cy := parseFloat (parts.getD 2 "") 0 * SCALE
    let radius := parseFloat (parts.getD 3 "") 0 * SCALE
    { sym with circles := sym.circles ++ [⟨cx, -cy, radius, 0.254, "none"⟩] }

/-- `SymbolConverter._parse_arc`. -/
def parseArcSym (sym : EasyEdaSymbol) (parts : List String) : EasyEdaSymbol :=
  if parts.length < 7 then sym
  else
    let cx := parseFloat (parts.getD 1 "") 0 * SCALE
    let cy := parseFloat (parts.getD 2 "") 0 * SCALE
    let rx := parseFloat (parts.getD 3 "") 0 * SCALE
    let ry := parseFloat (parts.getD 4 "") 0 * SCALE
    let startAngle := parseFloat (parts.getD 5 "") 0
    let endAngle := parseFloat (parts.getD 6 "") 0
    let radius := (rx + ry) / 2
    { sym with arcs := sym.arcs ++
        [⟨cx, -cy, radius, -endAngle, -startAngle, 0.254⟩] }

/-- `SymbolConverter._parse_text`. -/
def parseTextSym (sym : EasyEdaSymbol) (parts : List String) : EasyEdaSymbol :=
  if parts.length < 7 then sym
  else
    let x := parseFloat (parts.getD 2 "") 0 * SCALE
    let y := parseFloat (parts.getD 3 "") 0 * SCALE
    let rotation := parseFloat (parts.getD 4 "") 0
    let fontSize :=
      if parts.length > 6 then parseFloat (parts.getD 6 "") 0 * SCALE else 1.27
    let textContent := if parts.length > 8 then parts.getD 8 "" else ""
    if !textContent.data.isEmpty && !pyStarts textContent "#" then
      { sym with texts := sym.texts ++
          [⟨textContent, x, -y, max fontSize 0.5, rotation, "center", "center"⟩] }
    else sym

/-- Sets the `fill` of the last polyline to `"outline"`
(`self.current_symbol.polylines[-1].fill = "outline"`). -/
def setLastFillOutline : List SymbolPolyline → List SymbolPolyline
  | [] => []
  | [p] => [{ p with fill := "outline" }]
  | p :: q :: rest => p :: setLastFillOutline (q :: rest)

/-- `SymbolConverter._parse_polygon`: delegates to the polyline parser,
then marks the last polyline of the symbol (whatever it is) as filled. -/
def parsePolygonSym (sym : EasyEdaSymbol) (parts : List String) : EasyEdaSymbol :=
  let sym2 := parsePolylineSym sym parts
  if sym2.polylines.isEmpty then sym2
  else { sym2 with polylines := setLastFillOutline sym2.polylines }

/-- `SymbolConverter._parse_shape`: tag dispatch.  Every branch of the
source is a total function here, so the `try/except` of the source
(which logs and skips a failing shape) never fires. -/
def parseShapeSym (sym : EasyEdaSymbol) (shapeStr : String) : EasyEdaSymbol :=
  if shapeStr.data.isEmpty then sym
  else
    let parts := pySplitChar '~' shapeStr
    let shapeType := pyUpper (parts.headD "")
    if shapeType = "P" then parsePin sym parts
    else if shapeType = "R" then parseRectangleSym sym parts
    else if shapeType = "PL" then parsePolylineSym sym parts
    else if shapeType = "L" then parseLineSym sym parts
    else if shapeType = "C" ∨ shapeType = "E" then parseCircleSym sym parts
    else if shapeType = "A" then parseArcSym sym parts
    else if shapeType = "T" then parseTextSym sym parts
    else if shapeType = "PG" then parsePolygonSym sym parts
    else sym

/-- `SymbolConverter._calculate_offset`: negated center of the bounding
box of all pin positions, rectangle corners, polyline points and circle
extents; no geometry leaves the offset at `(0, 0)`. -/
def calculateOffset (sym : EasyEdaSymbol) : EasyEdaSymbol :=
  let allPoints : List (ℚ × ℚ) :=
    sym.pins.map (fun pin => (pin.x, pin.y)) ++
    (sym.rectangles.map (fun r => [(r.x, r.y), (r.x + r.width, r.y + r.height)])).flatten ++
    (sym.polylines.map (fun poly => poly.points.map (fun pt => (pt.x, pt.y)))).flatten ++
    (sym.circles.map (fun c =>
      [(c.cx - c.radius, c.cy - c.radius), (c.cx + c.radius, c.cy + c.radius)])).flatten
  if allPoints.isEmpty then sym
  else
    let minX := listMin (allPoints.map (fun p => p.1))
    let maxX := listMax (allPoints.map (fun p => p.1))
    let minY := listMin (allPoints.map (fun p => p.2))
    let maxY := listMax (allPoints.map (fun p => p.2))
    { sym with offset_x := -((minX + maxX) / 2), offset_y := -((minY + maxY) / 2) }

/-- The value built by `SymbolConverter.convert` for a structured payload
whose shape list is `shapes`. -/
def symResult (shapes : List String) (componentName description category : String) :
    EasyEdaSymbol :=
  calculateOffset
    (shapes.foldl parseShapeSym
      { emptySymbol componentName with refLetter := guessRefLetter description category })

/-- `SymbolConverter.convert` on a structured payload: parses every shape
command, computes the centering offset, and returns the symbol.  The
source returns `None` only when a *string* payload fails to decode as
JSON (or an exception escapes, which no branch here can raise). -/
def convertSymbol (shapes : List String) (componentName description category : String) :
    Option EasyEdaSymbol :=
  some (symResult shapes componentName description category)

/-! ## Footprint shape parser (`converters/footprint_converter.py`) -/

/-- `FootprintConverter.PAD_SHAPE_MAP`. -/
def PAD_SHAPE_MAP : List (String × PadShape) :=
  [("ELLIPSE", PadShape.circle), ("OVAL", PadShape.oval),
   ("RECT", PadShape.rect), ("POLYGON", PadShape.custom),
   ("ROUND", PadShape.circle)]

/-- `FootprintConverter._parse_point_list`: pairs of scaled coordinates,
not yet Y-flipped (callers negate y). -/
def parsePointListFp (pointsStr : String) : List (ℚ × ℚ) :=
  (pairUp (splitFields pointsStr)).map
    (fun ab => (parseFloat ab.1 0 * SCALE, parseFloat ab.2 0 * SCALE))

/-- `FootprintConverter._parse_svg_path_points`: path letters `M L Z m l
z` become spaces, then the same tokenization and pairing as the point
list (the `ValueError` branch of the source is dead code, since
`parse_float` never raises). -/
def svgPathPoints (pathStr : String) : List (ℚ × ℚ) :=
  let clean := String.mk (pathStr.data.map
    (fun c => if [ 'M', 'L', 'Z', 'm', 'l', 'z'].contains c then ' ' else c))
  (pairUp (splitFields clean)).map
    (fun ab => (parseFloat ab.1 0 * SCALE, parseFloat ab.2 0 * SCALE))

/-- A character of the regex class `[-\d.]`. -/
def isNumChar (c : Char) : Bool := c.isDigit || c == '-' || c == '.'

/-- Take a maximal nonempty `[-\d.]+` token. -/
def takeNumTok (l : List Char) : Option (List Char × List Char) :=
  let t := l.takeWhile isNumChar
  if t.isEmpty then none else some (t, l.dropWhile isNumChar)

/-- Skip `\s*`. -/
def skipWs (l : List Char) : List Char := l.dropWhile Char.isWhitespace

/-- Skip `[,\s]*`. -/
def skipSeps (l : List Char) : List Char := l.dropWhile isSepChar

/-- Greedy match of `M\s*([-\d.]+)[,\s]*([-\d.]+)` anchored at the head
of the input (regex backtracking never differs from the greedy reading
on the path data this grammar carries). -/
def matchMAt : List Char → Option (ℚ × ℚ)
  | 'M' :: rest =>
    match takeNumTok (skipWs rest) with
    | none => none
    | some (n1, r1) =>
      match takeNumTok (skipSeps r1) with
      | none => none
      | some (n2, _) =>
        some (parseFloat (String.mk n1) 0, parseFloat (String.mk n2) 0)
  | _ => none

/-- `re.search` of the `M` pattern: first position where it matches. -/
def searchM : List Char → Option (ℚ × ℚ)
  | [] => none
  | c :: rest =>
    match matchMAt (c :: rest) with
    | some v => some v
    | none => searchM rest

/-- Greedy match of
`A\s*([-\d.]+)[,\s]*([-\d.]+)[,\s]*([-\d.]+)[,\s]*(\d)[,\s]*(\d)[,\s]*([-\d.]+)[,\s]*([-\d.]+)`
anchored at the head; yields groups 1, 2, 6, 7 (`rx`, `ry`, `x2`, `y2`),
the only ones the source reads. -/
def matchAAt : List Char → Option (ℚ × ℚ × ℚ × ℚ)
  | 'A' :: rest =>
    match takeNumTok (skipWs rest) with
    | none => none
    | some (n1, r1) =>
      match takeNumTok (skipSeps r1) with
      | none => none
      | some (n2, r2) =>
        match takeNumTok (skipSeps r2) with
        | none => none
        | some (_, r3) =>
          match skipSeps r3 with
          | [] => none
          | c4 :: r4 =>
            if c4.isDigit then
              match skipSeps r4 with
              | [] => none
              | c5 :: r5 =>
                if c5.isDigit then
                  match takeNumTok (skipSeps r5) with
                  | none => none
                  | some (n6, r6) =>
                    match takeNumTok (skipSeps r6) with
                    | none => none
                    | some (n7, _) =>
                      some (parseFloat (String.mk n1) 0, parseFloat (String.mk n2) 0,
                            parseFloat (String.mk n6) 0, parseFloat (String.mk n7) 0)
                else none
            else none
  | _ => none

/-- `re.search` of the `A` pattern. -/
def searchA : List Char → Option (ℚ × ℚ × ℚ × ℚ)
  | [] => none
  | c :: rest =>
    match matchAAt (c :: rest) with
    | some v => some v
    | none => searchA rest

/-- The source computes the start/end angles with floating-point
`math.degrees(math.atan2(...))`.  An exact arctangent is not
rational-valued, and no claim verified in this file depends on these
angle values (they are forwarded into `FootprintArc.start_angle` and
`end_angle` only), so the angle computation is represented by this fixed
placeholder; every theorem below is independent of it. -/
def atan2Deg (_y _x : ℚ) : ℚ := 0

/-- `FootprintConverter._parse_arc_path`: start point from the `M`
match, radii and end point from the `A` match, center approximated as
the start/end midpoint, radius as the mean of `rx`/`ry`. -/
def parseArcPath (pathData : String) : Option (ℚ × ℚ × ℚ × ℚ × ℚ) :=
  match searchM pathData.data, searchA pathData.data with
  | some m, some a =>
    let x1 := m.1 * SCALE
    let y1 := m.2 * SCALE
    let rx := a.1 * SCALE
    let ry := a.2.1 * SCALE
    let x2 := a.2.2.1 * SCALE
    let y2 := a.2.2.2 * SCALE
    let radius := (rx + ry) / 2
    let cx := (x1 + x2) / 2
    let cy := (y1 + y2) / 2
    some (cx, cy, radius, atan2Deg (y1 - cy) (x1 - cx), atan2Deg (y2 - cy) (x2 - cx))
  | _, _ => none

/-- The hole radius a `PAD` command carries: field 9 (scaled), absent
fields meaning no hole.  Split out of `parsePad` so theorems can name
it. -/
def padHoleRadius (parts : List String) : ℚ :=
  if parts.length > 9 then parseFloat (parts.getD 9 "") 0 * SCALE else 0

/-- `FootprintConverter._parse_pad`. -/
def parsePad (fp : EasyEdaFootprint) (parts : List String) : EasyEdaFootprint :=
  if parts.length < 9 then fp
  else
    let shapeStr := pyUpper (parts.getD 1 "")
    let x := parseFloat (parts.getD 2 "") 0 * SCALE
    let y := parseFloat (parts.getD 3 "") 0 * SCALE
    let width := parseFloat (parts.getD 4 "") 0 * SCALE
    let height := parseFloat (parts.getD 5 "") 0 * SCALE
    let layer := parts.getD 6 ""
    let number := parts.getD 8 ""
    let shape := ((PAD_SHAPE_MAP.lookup shapeStr).getD PadShape.rect)
    let holeRadius := padHoleRadius parts
    let drillSize := if holeRadius > 0 then holeRadius * 2 else 0
    let padType := if holeRadius > 0 then PadType.thru_hole else PadType.smd
    let rotation := if parts.length > 11 then parseFloat (parts.getD 11 "") 0 else 0
    let kicadLayer := getKicadLayer layer
    let layers :=
      if padType = PadType.thru_hole then ["*.Cu", "*.Paste", "*.Mask"]
      else if pyStarts kicadLayer "F." then ["F.Cu", "F.Paste", "F.Mask"]
      else ["B.Cu", "B.Paste", "B.Mask"]
    { fp with pads := fp.pads ++
        [⟨number, x, -y, width, height, shape, padType, rotation, drillSize,
          "circle", layers, 0.25⟩] }

/-- One `FootprintLine` per consecutive point pair of a `TRACK`. -/
def trackSegments (kicadLayer : String) (strokeWidth : ℚ) :
    List (ℚ × ℚ) → List FootprintLine
  | a :: b :: rest =>
    ⟨a.1, -a.2, b.1, -b.2, kicadLayer, max strokeWidth 0.1⟩ ::
      trackSegments kicadLayer strokeWidth (b :: rest)
  | _ => []

/-- `FootprintConverter._parse_track`. -/
def parseTrack (fp : EasyEdaFootprint) (parts : List String) : EasyEdaFootprint :=
  if parts.length < 5 then fp
  else
    let strokeWidth := parseFloat (parts.getD 1 "") 0 * SCALE
    let layer := parts.getD 2 ""
    let pointsStr := parts.getD 4 ""
    let kicadLayer := getKicadLayer layer
    let points := parsePointListFp pointsStr
    { fp with lines := fp.lines ++ trackSegments kicadLayer strokeWidth points }

/-- `FootprintConverter._parse_circle`. -/
def parseCircleFp (fp : EasyEdaFootprint) (parts : List String) : EasyEdaFootprint :=
  if parts.length < 6 then fp
  else
    let cx := parseFloat (parts.getD 1 "") 0 * SCALE
    let cy := parseFloat (parts.getD 2 "") 0 * SCALE
    let radius := parseFloat (parts.getD 3 "") 0 * SCALE
    let strokeWidth := parseFloat (parts.getD 4 "") 0 * SCALE
    let layer := parts.getD 5 ""
    { fp with circles := fp.circles ++
        [⟨cx, -cy, radius, getKicadLayer layer, max strokeWidth 0.1, "none"⟩] }

/-- `FootprintConverter._parse_arc`. -/
def parseArcFp (fp : EasyEdaFootprint) (parts : List String) : EasyEdaFootprint :=
  if parts.length < 5 then fp
  else
    let strokeWidth := parseFloat (parts.getD 1 "") 0 * SCALE
    let layer := parts.getD 2 ""
    let pathData := parts.getD 4 ""
    let kicadLayer := getKicadLayer layer
    match parseArcPath pathData with
    | none => fp
    | some (cx, cy, radius, startAngle, endAngle) =>
      { fp with arcs := fp.arcs ++
          [⟨cx, -cy, radius, -endAngle, -startAngle, kicadLayer,
            max strokeWidth 0.1⟩] }

/-- `FootprintConverter._parse_rect`: four boundary lines with the
dataclass default stroke width `0.12`. -/
def parseRectFp (fp : EasyEdaFootprint) (parts : List String) : EasyEdaFootprint :=
  if parts.length < 6 then fp
  else
    let x := parseFloat (parts.getD 1 "") 0 * SCALE
    let y := parseFloat (parts.getD 2 "") 0 * SCALE
    let width := parseFloat (parts.getD 3 "") 0 * SCALE
    let height := parseFloat (parts.getD 4 "") 0 * SCALE
    let layer := parts.getD 5 ""
    let kicadLayer := getKicadLayer layer
    let yFlipped := -y
    { fp with lines := fp.lines ++
        [⟨x, yFlipped, x + width, yFlipped, kicadLayer, 0.12⟩,
         ⟨x + width, yFlipped, x + width, yFlipped - height, kicadLayer, 0.12⟩,
         ⟨x + width, yFlipped - height, x, yFlipped - height, kicadLayer, 0.12⟩,
         ⟨x, yFlipped - height, x, yFlipped, kicadLayer, 0.12⟩] }

/-- `FootprintConverter._parse_solid_region`: layers 99/100/101 are
discarded, empty point lists are discarded, otherwise a filled polygon
with the dataclass defaults (stroke `0.12`, fill `"solid"`). -/
def parseSolidRegion (fp : EasyEdaFootprint) (parts : List String) : EasyEdaFootprint :=
  if parts.length < 4 then fp
  else
    let layer := parts.getD 1 ""
    let pathStr := parts.getD 3 ""
    let kicadLayer := getKicadLayer layer
    if layer = "99" ∨ layer = "100" ∨ layer = "101" then fp
    else
      let points := svgPathPoints pathStr
      if points.isEmpty then fp
      else
        { fp with polygons := fp.polygons ++
            [⟨points.map (fun p => ⟨p.1, -p.2⟩), kicadLayer, 0.12, "solid"⟩] }

/-- `FootprintConverter._parse_text`. -/
def parseTextFp (fp : EasyEdaFootprint) (parts : List String) : EasyEdaFootprint :=
  if parts.length < 11 then fp
  else
    let textTypeStr := pyLower (parts.getD 1 "")
    let x := parseFloat (parts.getD 2 "") 0 * SCALE
    let y := parseFloat (parts.getD 3 "") 0 * SCALE
    let strokeWidth := parseFloat (parts.getD 4 "") 0 * SCALE
    let rotation := parseFloat (parts.getD 5 "") 0
    let layer := parts.getD 7 ""
    let fontSize := parseFloat (parts.getD 9 "") 0 * SCALE
    let textContent := if parts.length > 10 then parts.getD 10 "" else ""
    let kicadLayer := getKicadLayer layer
    let refLike := textTypeStr = "ref" ∨ textTypeStr = "reference"
    let textType :=
      if refLike then "reference"
      else if textTypeStr = "val" ∨ textTypeStr = "value" then "value"
      else "user"
    let content := if refLike then "REF**" else textContent
    { fp with texts := fp.texts ++
        [⟨content, x, -y, kicadLayer, max fontSize 0.5, max strokeWidth 0.1,
          rotation, textType⟩] }

/-- `FootprintConverter._parse_hole`. -/
def parseHoleFp (fp : EasyEdaFootprint) (parts : List String) : EasyEdaFootprint :=
  if parts.length < 4 then fp
  else
    let x := parseFloat (parts.getD 1 "") 0 * SCALE
    let y := parseFloat (parts.getD 2 "") 0 * SCALE
    let diameter := parseFloat (parts.getD 3 "") 0 * SCALE
    { fp with holes := fp.holes ++ [⟨x, -y, diameter⟩] }

/-- `FootprintConverter._parse_via`: a circular through-hole pad with
empty number, kept only when the drill exceeds 0.1 mm. -/
def parseVia (fp : EasyEdaFootprint) (parts : List String) : EasyEdaFootprint :=
  if parts.length < 5 then fp
  else
    let x := parseFloat (parts.getD 1 "") 0 * SCALE
    let y := parseFloat (parts.getD 2 "") 0 * SCALE
    let diameter := parseFloat (parts.getD 3 "") 0 * SCALE
    let drill := parseFloat (parts.getD 4 "") 0 * SCALE
    if drill > 0.1 then
      { fp with pads := fp.pads ++
          [⟨"", x, -y, diameter, diameter, PadShape.circle, PadType.thru_hole,
            0, drill, "circle", ["*.Cu"], 0.25⟩] }
    else fp

/-- `FootprintConverter._parse_shape_string`: tag dispatch (`SVGNODE` is
ignored).  Every branch of the source is total here, so its
`try/except` (log and skip) never fires. -/
def parseShapeFp (fp : EasyEdaFootprint) (shapeStr : String) : EasyEdaFootprint :=
  if shapeStr.data.isEmpty then fp
  else
    let parts := pySplitChar '~' shapeStr
    let shapeType := pyUpper (parts.headD "")
    if shapeType = "PAD" then parsePad fp parts
    else if shapeType = "TRACK" then parseTrack fp parts
    else if shapeType = "CIRCLE" then parseCircleFp fp parts
    else if shapeType = "ARC" then parseArcFp fp parts
    else if shapeType = "RECT" then parseRectFp fp parts
    else if shapeType = "SOLIDREGION" then parseSolidRegion fp parts
    else if shapeType = "TEXT" then parseTextFp fp parts
    else if shapeType = "HOLE" then parseHoleFp fp parts
    else if shapeType = "VIA" then parseVia fp parts
    else fp

/-- `FootprintConverter._calculate_bounds_and_center`: the center of the
bounding box of the pad centers (falling back to line endpoints and
circle centers when there are no pads) is subtracted from every
primitive; with no reference points the footprint is left untouched. -/
def calcBoundsAndCenter (fp : EasyEdaFootprint) : EasyEdaFootprint :=
  let padPoints := fp.pads.map (fun p => (p.x, p.y))
  let allPoints :=
    if padPoints.isEmpty then
      (fp.lines.map (fun l => [(l.x1, l.y1), (l.x2, l.y2)])).flatten ++
      fp.circles.map (fun c => (c.cx, c.cy))
    else padPoints
  if allPoints.isEmpty then fp
  else
    let minX := listMin (allPoints.map (fun p => p.1))
    let maxX := listMax (allPoints.map (fun p => p.1))
    let minY := listMin (allPoints.map (fun p => p.2))
    let maxY := listMax (allPoints.map (fun p => p.2))
    let centerX := (minX + maxX) / 2
    let centerY := (minY + maxY) / 2
    { fp with
      pads := fp.pads.map (fun p => { p with x := p.x - centerX, y := p.y - centerY }),
      lines := fp.lines.map (fun l =>
        { l with x1 := l.x1 - centerX, y1 := l.y1 - centerY,
                 x2 := l.x2 - centerX, y2 := l.y2 - centerY }),
      circles := fp.circles.map (fun c => { c with cx := c.cx - centerX, cy := c.cy - centerY }),
      arcs := fp.arcs.map (fun a => { a with cx := a.cx - centerX, cy := a.cy - centerY }),
      polygons := fp.polygons.map (fun poly =>
        { poly with points := poly.points.map (fun pt => ⟨pt.x - centerX, pt.y - centerY⟩) }),
      texts := fp.texts.map (fun t => { t with x := t.x - centerX, y := t.y - centerY }),
      holes := fp.holes.map (fun h => { h with x := h.x - centerX, y := h.y - centerY }) }

/-- `FootprintConverter._calculate_bounds`: bounding box of pad boxes,
line endpoints, circle boxes and polygon points (arcs, texts and holes
are not included by the source); empty geometry leaves `bounds`
untouched. -/
def calcBounds (fp : EasyEdaFootprint) : EasyEdaFootprint :=
  let allPoints :=
    (fp.pads.map (fun p =>
      [(p.x - p.width / 2, p.y - p.height / 2),
       (p.x + p.width / 2, p.y + p.height / 2)])).flatten ++
    (fp.lines.map (fun l => [(l.x1, l.y1), (l.x2, l.y2)])).flatten ++
    (fp.circles.map (fun c =>
      [(c.cx - c.radius, c.cy - c.radius), (c.cx + c.radius, c.cy + c.radius)])).flatten ++
    (fp.polygons.map (fun poly => poly.points.map (fun pt => (pt.x, pt.y)))).flatten
  if allPoints.isEmpty then fp
  else { fp with bounds := some (boundingBox allPoints) }

/-- The four courtyard lines appended by
`FootprintConverter._generate_courtyard` around an (already expanded)
box: a closed rectangle on `F.CrtYd` with stroke `0.05`. -/
def courtyardLines (bbox : ℚ × ℚ × ℚ × ℚ) : List FootprintLine :=
  let minX := bbox.1
  let minY := bbox.2.1
  let maxX := bbox.2.2.1
  let maxY := bbox.2.2.2
  [⟨minX, minY, maxX, minY, "F.CrtYd", 0.05⟩,
   ⟨maxX, minY, maxX, maxY, "F.CrtYd", 0.05⟩,
   ⟨maxX, maxY, minX, maxY, "F.CrtYd", 0.05⟩,
   ⟨minX, maxY, minX, minY, "F.CrtYd", 0.05⟩]

/-- `FootprintConverter._generate_courtyard`: no bounds, no courtyard;
otherwise the rectangle 0.25 mm outside the bounds is appended. -/
def generateCourtyard (fp : EasyEdaFootprint) : EasyEdaFootprint :=
  match fp.bounds with
  | none => fp
  | some bbox => { fp with lines := fp.lines ++ courtyardLines (expandBbox bbox 0.25) }

/-- The footprint state after parsing all shape commands
(`FootprintConverter._parse_footprint_data` over string shapes). -/
def parsedFp (shapes : List String) (componentName : String) : EasyEdaFootprint :=
  shapes.foldl parseShapeFp (emptyFootprint componentName)

/-- The footprint state after centering and bounds computation, just
before the courtyard check of `FootprintConverter.convert`. -/
def midFp (shapes : List String) (componentName : String) : EasyEdaFootprint :=
  calcBounds (calcBoundsAndCenter (parsedFp shapes componentName))

/-- The value built by `FootprintConverter.convert` for a structured
payload whose shape list is `shapes`. -/
def fpResult (shapes : List String) (componentName : String) : EasyEdaFootprint :=
  let fp := midFp shapes componentName
  if hasCourtyard fp then fp else generateCourtyard fp

/-- `FootprintConverter.convert` on a structured payload.  The source
returns `None` only when a *string* payload fails to decode as JSON (or
an exception escapes, which no branch here can raise). -/
def convertFootprint (shapes : List String) (componentName : String) :
    Option EasyEdaFootprint :=
  some (fpResult shapes componentName)

/-! ## 3D placement heuristic and override store (`kicad/model3d_config.py`) -/

/-- One persisted override entry (`{offset?, rotation?, scale?}`); an
absent key of the JSON object is `none`. -/
structure Model3DOverride where
  offset : Option (ℚ × ℚ × ℚ)
  rotation : Option (ℚ × ℚ × ℚ)
  scale : Option (ℚ × ℚ × ℚ)
deriving DecidableEq, Repr

/-- The in-memory override mapping `Model3DConfig.overrides` (a Python
dict keyed by uppercased component id), modelled by its lookup
function: each key holds at most one entry, exactly as a dict. -/
def OverrideStore := String → Option Model3DOverride

/-- The empty dict `{}`. -/
def emptyStore : OverrideStore := fun _ => none

/-- Dict read `overrides.get(key)`. -/
def alGet (st : OverrideStore) (key : String) : Option Model3DOverride :=
  st key

/-- Dict write `overrides[key] = value`. -/
def alSet (st : OverrideStore) (key : String) (v : Model3DOverride) : OverrideStore :=
  fun k => if k = key then some v else st k

/-- Dict delete `del overrides[key]` (the `if key in overrides` guard of
`remove_override` makes the absent case a no-op, which coincides with
this update). -/
def alErase (st : OverrideStore) (key : String) : OverrideStore :=
  fun k => if k = key then none else st k

/-- `if offset is not None: entry["offset"] = offset` — a `some`
argument replaces the stored field, `none` keeps it. -/
def updField (new old : Option (ℚ × ℚ × ℚ)) : Option (ℚ × ℚ × ℚ) :=
  match new with
  | some v => some v
  | none => old

/-- `Model3DConfig.set_override` (the `save_overrides` disk write has no
effect on the mapping). -/
def setOverride (st : OverrideStore) (lcscId : String)
    (offset rotation scale : Option (ℚ × ℚ × ℚ)) : OverrideStore :=
  let key := pyUpper lcscId
  let cur := (alGet st key).getD ⟨none, none, none⟩
  alSet st key
    ⟨updField offset cur.offset, updField rotation cur.rotation,
     updField scale cur.scale⟩

/-- `Model3DConfig.get_override`. -/
def getOverride (st : OverrideStore) (lcscId : String) : Option Model3DOverride :=
  alGet st (pyUpper lcscId)

/-- `Model3DConfig.remove_override`. -/
def removeOverride (st : OverrideStore) (lcscId : String) : OverrideStore :=
  alErase st (pyUpper lcscId)

/-- Python truthiness of the override dict in `if override:`: an entry
whose three fields are all absent is an empty dict, hence falsy. -/
def ovTruthy (ov : Model3DOverride) : Bool :=
  ov.offset.isSome || ov.rotation.isSome || ov.scale.isSome

/-- `Model3DConfig._find_pin1`: a pad numbered `1`/`A1`/`A`/`P1`, else
the numerically least purely-numeric pad (first among equals, as the
stable sort of the source), else the first pad. -/
def findPin1 (fp : EasyEdaFootprint) : Option FootprintPad :=
  match fp.pads.find? (fun p => ["1", "A1", "A", "P1"].contains p.number) with
  | some p => some p
  | none =>
    match fp.pads.filter (fun p => pyIsDigit p.number) with
    | [] => fp.pads.head?
    | q :: qs =>
      some (qs.foldl
        (fun best p =>
          if natOfDigits p.number.data < natOfDigits best.number.data then p else best)
        q)

/-- `Model3DConfig._calculate_rotation_from_pin1`: quadrant
classification of pin 1 relative to the pad-bounding-box center, with a
dead band of `0.3 * width` / `0.3 * height` (degenerate boxes give 0). -/
def rotationFromPin1 (pin1 : FootprintPad)
    (centroidX centroidY minX maxX minY maxY : ℚ) : ℚ :=
  let relX := pin1.x - centroidX
  let relY := pin1.y - centroidY
  let width := maxX - minX
  let height := maxY - minY
  if width < 0.1 ∨ height < 0.1 then 0
  else
    let threshold : ℚ := 0.3
    if relX < -width * threshold ∧ relY < -height * threshold then 0
    else if relX > width * threshold ∧ relY < -height * threshold then 90
    else if relX > width * threshold ∧ relY > height * threshold then 180
    else if relX < -width * threshold ∧ relY > height * threshold then 270
    else 0

/-- `Model3DConfig._calculate_heuristic_transform`: zero transform for a
padless footprint; otherwise the offset recenters the model on the
bounding box of the pad centers and the Z rotation comes from pin 1. -/
def heuristicTransform (fp : EasyEdaFootprint) :
    (ℚ × ℚ × ℚ) × (ℚ × ℚ × ℚ) × (ℚ × ℚ × ℚ) :=
  if fp.pads.isEmpty then ((0, 0, 0), (0, 0, 0), (1, 1, 1))
  else
    let padXs := fp.pads.map (fun p => p.x)
    let padYs := fp.pads.map (fun p => p.y)
    let minX := listMin padXs
    let maxX := listMax padXs
    let minY := listMin padYs
    let maxY := listMax padYs
    let centroidX := (minX + maxX) / 2
    let centroidY := (minY + maxY) / 2
    let rotationZ :=
      match findPin1 fp with
      | some pin1 => rotationFromPin1 pin1 centroidX centroidY minX maxX minY maxY
      | none => 0
    ((-centroidX, -centroidY, 0), (0, 0, rotationZ), (1, 1, 1))

/-- `Model3DConfig.calculate_transform`: a truthy override wins
verbatim, with `[0,0,0]` / `[0,0,0]` / `[1,1,1]` defaults for absent
fields; otherwise the geometry heuristic. -/
def calculateTransform (st : OverrideStore) (lcscId : String)
    (fp : EasyEdaFootprint) : (ℚ × ℚ × ℚ) × (ℚ × ℚ × ℚ) × (ℚ × ℚ × ℚ) :=
  match getOverride st lcscId with
  | some ov =>
    if ovTruthy ov then
      (ov.offset.getD (0, 0, 0), ov.rotation.getD (0, 0, 0), ov.scale.getD (1, 1, 1))
    else heuristicTransform fp
  | none => heuristicTransform fp

/-- An operator action on the override store, for stating persistence of
an override across later actions. -/
inductive StoreOp
  | setOv (lcscId : String) (offset rotation scale : Option (ℚ × ℚ × ℚ))
  | removeOv (lcscId : String)
deriving DecidableEq, Repr

/-- Apply one action. -/
def applyOp (st : OverrideStore) : StoreOp → OverrideStore
  | StoreOp.setOv lcscId o r s => setOverride st lcscId o r s
  | StoreOp.removeOv lcscId => removeOverride st lcscId

/-- Apply a sequence of actions in order. -/
def applyOps (st : OverrideStore) (ops : List StoreOp) : OverrideStore :=
  ops.foldl applyOp st

/-- An action leaves the rotation stored under `key` intact: it is keyed
elsewhere, or it is a `set_override` call that passes `rotation=None`. -/
def keepsRotation (key : String) : StoreOp → Prop
  | StoreOp.setOv lcscId _ r _ => pyUpper lcscId ≠ key ∨ r = none
  | StoreOp.removeOv lcscId => pyUpper lcscId ≠ key

/-! ## Properties under scrutiny (stated from the claims' wording) -/

/-- The unweighted centroid (arithmetic mean) of the pad bounding-box
centers, following the wording of the footprint-centering claim.  Each
pad's bounding box is the axis-aligned box centered on `(p.x, p.y)`, so
its centroid is the pad position itself. -/
def padCentroidMean (fp : EasyEdaFootprint) : ℚ × ℚ :=
  ((fp.pads.map (fun p => p.x)).sum / fp.pads.length,
   (fp.pads.map (fun p => p.y)).sum / fp.pads.length)

/-- The midpoint of the bounding box of the pad centers — the quantity
`_calculate_bounds_and_center` actually drives to the origin. -/
def padBBoxMid (fp : EasyEdaFootprint) : ℚ × ℚ :=
  ((listMin (fp.pads.map (fun p => p.x)) + listMax (fp.pads.map (fun p => p.x))) / 2,
   (listMin (fp.pads.map (fun p => p.y)) + listMax (fp.pads.map (fun p => p.y))) / 2)

/-- A stored footprint line is style-conformant: stroke at least 0.1 mm,
except that a synthesized courtyard line carries exactly the 0.05 mm
stroke `_generate_courtyard` hard-codes on `F.CrtYd`. -/
def lineStyleOK (l : FootprintLine) : Prop :=
  0.1 ≤ l.stroke_width ∨ (l.layer = "F.CrtYd" ∧ l.stroke_width = 0.05)

/-- Style conformance of every primitive of a converted footprint:
minimum strokes and font sizes (texts additionally carry their own
stroke, `thickness`). -/
def fpStyleOK (fp : EasyEdaFootprint) : Prop :=
  (∀ l ∈ fp.lines, lineStyleOK l) ∧
  (∀ c ∈ fp.circles, (0.1 : ℚ) ≤ c.stroke_width) ∧
  (∀ a ∈ fp.arcs, (0.1 : ℚ) ≤ a.stroke_width) ∧
  (∀ poly ∈ fp.polygons, (0.1 : ℚ) ≤ poly.stroke_width) ∧
  (∀ t ∈ fp.texts, (0.1 : ℚ) ≤ t.thickness ∧ (0.5 : ℚ) ≤ t.font_size)

/-- Style conformance of every primitive of a converted symbol. -/
def symStyleOK (sym : EasyEdaSymbol) : Prop :=
  (∀ r ∈ sym.rectangles, (0.1 : ℚ) ≤ r.stroke_width) ∧
  (∀ poly ∈ sym.polylines, (0.1 : ℚ) ≤ poly.stroke_width) ∧
  (∀ c ∈ sym.circles, (0.1 : ℚ) ≤ c.stroke_width) ∧
  (∀ a ∈ sym.arcs, (0.1 : ℚ) ≤ a.stroke_width) ∧
  (∀ t ∈ sym.texts, (0.5 : ℚ) ≤ t.font_size)

/-! ## Helper lemmas -/

/-- A predicate preserved by every step of a fold is preserved by the
whole fold. -/
theorem foldl_preserve {α β : Type} (P : α → Prop) (f : α → β → α)
    (hf : ∀ a b, P a → P (f a b)) :
    ∀ (l : List β) (a : α), P a → P (l.foldl f a)
  | [], _, h => h
  | b :: l, a, h => foldl_preserve P f hf l (f a b) (hf a b h)

/-- Folding `min` commutes with a uniform shift. -/
theorem foldl_min_sub (c : ℚ) :
    ∀ (xs : List ℚ) (a : ℚ),
      (xs.map (fun v => v - c)).foldl min (a - c) = xs.foldl min a - c
  | [], _ => rfl
  | x :: xs, a => by
    simpa [min_sub_sub_right] using foldl_min_sub c xs (min a x)

/-- Folding `max` commutes with a uniform shift. -/
theorem foldl_max_sub (c : ℚ) :
    ∀ (xs : List ℚ) (a : ℚ),
      (xs.map (fun v => v - c)).foldl max (a - c) = xs.foldl max a - c
  | [], _ => rfl
  | x :: xs, a => by
    simpa [max_sub_sub_right] using foldl_max_sub c xs (max a x)

/-- `listMin` commutes with a uniform shift on nonempty lists. -/
theorem listMin_map_sub (x : ℚ) (xs : List ℚ) (c : ℚ) :
    listMin ((x :: xs).map (fun v => v - c)) = listMin (x :: xs) - c := by
  simpa [listMin] using foldl_min_sub c xs x

/-- `listMax` commutes with a uniform shift on nonempty lists. -/
theorem listMax_map_sub (x : ℚ) (xs : List ℚ) (c : ℚ) :
    listMax ((x :: xs).map (fun v => v - c)) = listMax (x :: xs) - c := by
  simpa [listMax] using foldl_max_sub c xs x

/-! ## C1 — conversion result on geometry-free payloads -/

/-- C1 (counterexample): a symbol payload holding one unsupported shape
command and a footprint payload holding only the ignored `SVGNODE` tag
each convert to `some` empty-but-valid object — with every geometry list
empty — and not to the "no result" value the claim requires. -/
theorem c1_cex :
    convertSymbol ["XX~1"] "Comp" "" "" = some (emptySymbol "Comp") ∧
    (emptySymbol "Comp").pins = [] ∧
    (emptySymbol "Comp").rectangles = [] ∧
    (emptySymbol "Comp").polylines = [] ∧
    (emptySymbol "Comp").circles = [] ∧
    (emptySymbol "Comp").arcs = [] ∧
    (emptySymbol "Comp").texts = [] ∧
    convertFootprint ["SVGNODE~1"] "FP" = some (emptyFootprint "FP") ∧
    (emptyFootprint "FP").pads = [] ∧
    (emptyFootprint "FP").lines = [] ∧
    (emptyFootprint "FP").circles = [] ∧
    (emptyFootprint "FP").arcs = [] ∧
    (emptyFootprint "FP").polygons = [] ∧
    (emptyFootprint "FP").texts = [] ∧
    (emptyFootprint "FP").holes = [] :=
  ⟨rfl, rfl, rfl, rfl, rfl, rfl, rfl, rfl, rfl, rfl, rfl, rfl, rfl, rfl, rfl⟩

/-- C1 (amended): for a structured payload, symbol and footprint
conversion always return `some` object — in particular an
empty-but-valid one when the shape list yields no geometry; the "no
result" value arises only for a string payload that fails JSON
decoding. -/
theorem c1_amended (shapes : List String) (componentName description category : String)
    (shapes2 : List String) (componentName2 : String) :
    (convertSymbol shapes componentName description category).isSome = true ∧
    (convertFootprint shapes2 componentName2).isSome = true :=
  ⟨rfl, rfl⟩

/-! ## C3 — pad type and drill size from the hole radius -/

/-- C3: every `PAD` command the footprint parser accepts (at least 9
fields) appends exactly one pad, whose type is `thru_hole` iff the
parsed scaled hole radius is strictly positive; in that case the drill
size is exactly twice that radius, otherwise the pad is `smd` with
drill size 0. -/
theorem c3 (fp : EasyEdaFootprint) (parts : List String) (h : 9 ≤ parts.length) :
    ∃ pad, (parsePad fp parts).pads = fp.pads ++ [pad] ∧
      (pad.pad_type = PadType.thru_hole ↔ 0 < padHoleRadius parts) ∧
      (0 < padHoleRadius parts → pad.drill_size = 2 * padHoleRadius parts) ∧
      (pad.pad_type = PadType.smd ↔ ¬ 0 < padHoleRadius parts) ∧
      (pad.pad_type = PadType.smd → pad.drill_size = 0) := by
  unfold parsePad
  rw [if_neg (by omega)]
  refine ⟨_, rfl, ?_, ?_, ?_, ?_⟩ <;>
    by_cases hr : 0 < padHoleRadius parts <;>
    simp [hr, mul_comm]

/-- C3 (witness): a concrete ten-field `PAD` command with hole-radius
field `1` (scaled radius `0.254`). -/
theorem c3_witness :
    ∃ pad, (parsePad (emptyFootprint "F")
        ["PAD", "ELLIPSE", "0", "0", "4", "4", "1", "0", "5", "1"]).pads
        = (emptyFootprint "F").pads ++ [pad] ∧
      (pad.pad_type = PadType.thru_hole ↔
        0 < padHoleRadius ["PAD", "ELLIPSE", "0", "0", "4", "4", "1", "0", "5", "1"]) ∧
      (0 < padHoleRadius ["PAD", "ELLIPSE", "0", "0", "4", "4", "1", "0", "5", "1"] →
        pad.drill_size = 2 * padHoleRadius ["PAD", "ELLIPSE", "0", "0", "4", "4", "1", "0", "5", "1"]) ∧
      (pad.pad_type = PadType.smd ↔
        ¬ 0 < padHoleRadius ["PAD", "ELLIPSE", "0", "0", "4", "4", "1", "0", "5", "1"]) ∧
      (pad.pad_type = PadType.smd → pad.drill_size = 0) :=
  c3 (emptyFootprint "F") ["PAD", "ELLIPSE", "0", "0", "4", "4", "1", "0", "5", "1"]
    (by decide)

/-! ## C6 — single Y flip on parsed pins -/

/-- C6: every accepted pin command (at least 7 fields) appends exactly
one pin whose `y`, before the symbol-level centering offset (which is
stored separately in `offset_x`/`offset_y` and never applied to pins),
is the parsed source `y` scaled by `0.254` and negated exactly once. -/
theorem c6 (sym : EasyEdaSymbol) (parts : List String) (h : 7 ≤ parts.length) :
    ∃ pin, (parsePin sym parts).pins = sym.pins ++ [pin] ∧
      pin.y = -(parseFloat (parts.getD 5 "") 0 * SCALE) := by
  unfold parsePin
  rw [if_neg (by omega)]
  exact ⟨_, rfl, rfl⟩

unseal Rat.mul Rat.add Rat.sub Rat.inv Rat.ofScientific in
/-- C6 (witness): source `y = 100` yields a pin at `y = -25.4` mm
(`-127/5`). -/
theorem c6_witness :
    ∃ pin, (parsePin (emptySymbol "C") ["P", "show", "0", "1", "10", "100", "0"]).pins
        = (emptySymbol "C").pins ++ [pin] ∧ pin.y = -(127 / 5 : ℚ) := by
  obtain ⟨pin, h1, h2⟩ :=
    c6 (emptySymbol "C") ["P", "show", "0", "1", "10", "100", "0"] (by decide)
  exact ⟨pin, h1, by rw [h2]; decide⟩

/-! ## C9 — malformed shapes are skipped, the rest processed -/

/-- C9: a `PAD` command with exactly 3 tilde-separated fields is skipped
by the footprint parser as a whole: parsing any shape list around it
gives exactly the result of parsing the list without it (every parser
branch is total, so no exception can escape). -/
theorem c9 (fp : EasyEdaFootprint) (pre post : List String) (cmd : String)
    (h3 : (pySplitChar '~' cmd).length = 3)
    (hpad : pyUpper ((pySplitChar '~' cmd).headD "") = "PAD") :
    List.foldl parseShapeFp fp (pre ++ cmd :: post) =
      List.foldl parseShapeFp fp (pre ++ post) := by
  have hskip : ∀ fp2, parseShapeFp fp2 cmd = fp2 := by
    intro fp2
    have hne : cmd.data.isEmpty = false := by
      cases hc : cmd.data with
      | nil => simp [pySplitChar, hc, pySplitCharAux] at h3
      | cons c cs => simp
    unfold parseShapeFp
    simp only [hne, Bool.false_eq_true, if_false, hpad, if_pos]
    simp only [parsePad]
    rw [if_pos (by omega)]
  rw [List.foldl_append, List.foldl_cons, hskip, ← List.foldl_append]

/-- C9 (witness): one malformed three-field `PAD` among nine valid ones
yields exactly 9 parsed pads. -/
theorem c9_witness :
    (List.foldl parseShapeFp (emptyFootprint "FP")
      (["PAD~ELLIPSE~0~0~4~4~1~0~1", "PAD~ELLIPSE~10~0~4~4~1~0~2",
        "PAD~ELLIPSE~20~0~4~4~1~0~3", "PAD~ELLIPSE~30~0~4~4~1~0~4"] ++
       "PAD~1~2" ::
       ["PAD~ELLIPSE~40~0~4~4~1~0~5", "PAD~ELLIPSE~50~0~4~4~1~0~6",
        "PAD~ELLIPSE~60~0~4~4~1~0~7", "PAD~ELLIPSE~70~0~4~4~1~0~8",
        "PAD~ELLIPSE~80~0~4~4~1~0~9"])).pads.length = 9 := by
  rw [c9 (emptyFootprint "FP") _ _ "PAD~1~2" (by decide) (by decide)]
  decide

/-! ## C10 — frame effect of polygon parsing -/

/-- Marking the last polyline acts only on the appended element. -/
theorem setLastFill_append :
    ∀ (L : List SymbolPolyline) (p : SymbolPolyline),
      setLastFillOutline (L ++ [p]) = L ++ [{ p with fill := "outline" }]
  | [], _ => rfl
  | [_], _ => rfl
  | q :: r :: L, p => by
    show q :: setLastFillOutline ((r :: L) ++ [p])
        = q :: ((r :: L) ++ [{ p with fill := "outline" }])
    rw [setLastFill_append (r :: L) p]

/-- C10 (counterexample): `PG~` carries an empty point list — so no
polyline is appended — yet parsing it on a symbol that already holds one
polyline rewrites that pre-existing polyline's fill from `"none"` to
`"outline"`. -/
theorem c10_cex :
    parsePointListSym "" = [] ∧
    (parseShapeSym
        { emptySymbol "S" with polylines := [⟨[⟨0, 0⟩, ⟨1, 0⟩], 0.254, "none"⟩] }
        "PG~").polylines
      = [⟨[⟨0, 0⟩, ⟨1, 0⟩], 0.254, "outline"⟩] :=
  ⟨rfl, rfl⟩

/-- C10 (amended): when polyline parsing appends a new polyline, the
polygon parser sets only that new polyline's fill to `"outline"`; when
it appends nothing and prior polylines exist, the *last prior*
polyline's fill is set to `"outline"` (contrary to the claim); with no
polylines at all the symbol is unchanged. -/
theorem c10_amended :
    (∀ (sym : EasyEdaSymbol) (parts : List String) (pl : SymbolPolyline),
      parsePolylineSym sym parts = { sym with polylines := sym.polylines ++ [pl] } →
      parsePolygonSym sym parts
        = { sym with polylines := sym.polylines ++ [{ pl with fill := "outline" }] }) ∧
    (∀ (sym : EasyEdaSymbol) (parts : List String),
      parsePolylineSym sym parts = sym → sym.polylines ≠ [] →
      ∃ front lastPl, sym.polylines = front ++ [lastPl] ∧
        parsePolygonSym sym parts
          = { sym with polylines := front ++ [{ lastPl with fill := "outline" }] }) ∧
    (∀ (sym : EasyEdaSymbol) (parts : List String),
      parsePolylineSym sym parts = sym → sym.polylines = [] →
      parsePolygonSym sym parts = sym) := by
  refine ⟨?_, ?_, ?_⟩
  · intro sym parts pl hpl
    simp only [parsePolygonSym]
    rw [hpl]
    simp [setLastFill_append]
  · intro sym parts hpl hne
    obtain ⟨front, lastPl, hfl⟩ : ∃ front lastPl, sym.polylines = front ++ [lastPl] :=
      ⟨_, _, (List.dropLast_append_getLast hne).symm⟩
    refine ⟨front, lastPl, hfl, ?_⟩
    simp only [parsePolygonSym]
    rw [hpl, if_neg (by simp [List.isEmpty_iff, hne]), hfl, setLastFill_append]
  · intro sym parts hpl hnil
    simp only [parsePolygonSym]
    rw [hpl, if_pos (by simp [hnil])]

/-- C10 (witness): the appended-nothing case at a concrete symbol — the
single prior polyline is rewritten. -/
theorem c10_witness :
    ∃ front lastPl,
      ([⟨[⟨0, 0⟩, ⟨1, 0⟩], (0.254 : ℚ), "none"⟩] : List SymbolPolyline)
          = front ++ [lastPl] ∧
      parsePolygonSym
          { emptySymbol "S" with polylines := [⟨[⟨0, 0⟩, ⟨1, 0⟩], 0.254, "none"⟩] }
          ["PG", ""]
        = { emptySymbol "S" with polylines := front ++ [{ lastPl with fill := "outline" }] } :=
  c10_amended.2.1
    { emptySymbol "S" with polylines := [⟨[⟨0, 0⟩, ⟨1, 0⟩], 0.254, "none"⟩] }
    ["PG", ""] rfl (by decide)

/-! ## C5 — courtyard synthesis -/

/-- C5: for a converted footprint with computed bounds
`(x0, y0, x1, y1)`: when no parsed line lies on a courtyard layer,
conversion appends exactly the four lines of the closed rectangle 0.25
mm outside the bounds, on `F.CrtYd` with stroke 0.05; when a courtyard
line already exists, the footprint is returned unchanged. -/
theorem c5 (shapes : List String) (componentName : String) (x0 y0 x1 y1 : ℚ)
    (hb : (midFp shapes componentName).bounds = some (x0, y0, x1, y1)) :
    (hasCourtyard (midFp shapes componentName) = false →
      fpResult shapes componentName
        = { midFp shapes componentName with
            lines := (midFp shapes componentName).lines ++
              [⟨x0 - 0.25, y0 - 0.25, x1 + 0.25, y0 - 0.25, "F.CrtYd", 0.05⟩,
               ⟨x1 + 0.25, y0 - 0.25, x1 + 0.25, y1 + 0.25, "F.CrtYd", 0.05⟩,
               ⟨x1 + 0.25, y1 + 0.25, x0 - 0.25, y1 + 0.25, "F.CrtYd", 0.05⟩,
               ⟨x0 - 0.25, y1 + 0.25, x0 - 0.25, y0 - 0.25, "F.CrtYd", 0.05⟩] }) ∧
    (hasCourtyard (midFp shapes componentName) = true →
      fpResult shapes componentName = midFp shapes componentName) := by
  constructor <;> intro hc <;>
    simp [fpResult, hc, generateCourtyard, hb, courtyardLines, expandBbox]

unseal Rat.mul Rat.add Rat.sub Rat.inv Rat.ofScientific in
/-- C5 (witness): a one-pad footprint (bounds
`(-127/250, -127/250, 127/250, 127/250)`, no courtyard line parsed)
receives exactly the four courtyard lines. -/
theorem c5_witness :
    (hasCourtyard (midFp ["PAD~ELLIPSE~0~0~4~4~1~0~1"] "F") = false →
      fpResult ["PAD~ELLIPSE~0~0~4~4~1~0~1"] "F"
        = { midFp ["PAD~ELLIPSE~0~0~4~4~1~0~1"] "F" with
            lines := (midFp ["PAD~ELLIPSE~0~0~4~4~1~0~1"] "F").lines ++
              [⟨-(127 / 250) - 0.25, -(127 / 250) - 0.25, 127 / 250 + 0.25,
                -(127 / 250) - 0.25, "F.CrtYd", 0.05⟩,
               ⟨127 / 250 + 0.25, -(127 / 250) - 0.25, 127 / 250 + 0.25,
                127 / 250 + 0.25, "F.CrtYd", 0.05⟩,
               ⟨127 / 250 + 0.25, 127 / 250 + 0.25, -(127 / 250) - 0.25,
                127 / 250 + 0.25, "F.CrtYd", 0.05⟩,
               ⟨-(127 / 250) - 0.25, 127 / 250 + 0.25, -(127 / 250) - 0.25,
                -(127 / 250) - 0.25, "F.CrtYd", 0.05⟩] }) ∧
    (hasCourtyard (midFp ["PAD~ELLIPSE~0~0~4~4~1~0~1"] "F") = true →
      fpResult ["PAD~ELLIPSE~0~0~4~4~1~0~1"] "F"
        = midFp ["PAD~ELLIPSE~0~0~4~4~1~0~1"] "F") :=
  c5 ["PAD~ELLIPSE~0~0~4~4~1~0~1"] "F"
    (-(127 / 250)) (-(127 / 250)) (127 / 250) (127 / 250) (by decide)

/-! ## C2 — footprint centering -/

/-- `listMin` commutes with a uniform shift, nonempty-list form. -/
theorem listMin_map_sub_of_ne (L : List ℚ) (c : ℚ) (h : L ≠ []) :
    listMin (L.map (fun v => v - c)) = listMin L - c := by
  cases L with
  | nil => exact absurd rfl h
  | cons x xs => exact listMin_map_sub x xs c

/-- `listMax` commutes with a uniform shift, nonempty-list form. -/
theorem listMax_map_sub_of_ne (L : List ℚ) (c : ℚ) (h : L ≠ []) :
    listMax (L.map (fun v => v - c)) = listMax L - c := by
  cases L with
  | nil => exact absurd rfl h
  | cons x xs => exact listMax_map_sub x xs c

/-- Bounds computation does not touch the pads. -/
theorem calcBounds_pads (fp : EasyEdaFootprint) : (calcBounds fp).pads = fp.pads := by
  simp only [calcBounds]
  split <;> rfl

/-- Courtyard synthesis does not touch the pads. -/
theorem generateCourtyard_pads (fp : EasyEdaFootprint) :
    (generateCourtyard fp).pads = fp.pads := by
  unfold generateCourtyard
  split <;> rfl

/-- The pads of the conversion result are exactly the pads after the
centering pass. -/
theorem fpResult_pads (shapes : List String) (componentName : String) :
    (fpResult shapes componentName).pads
      = (calcBoundsAndCenter (parsedFp shapes componentName)).pads := by
  simp only [fpResult, midFp]
  split
  · exact calcBounds_pads _
  · rw [generateCourtyard_pads, calcBounds_pads]

/-- With at least one pad, the centering pass translates every pad by
minus the midpoint of the bounding box of the pad centers. -/
theorem calcBoundsAndCenter_pads (fp : EasyEdaFootprint) (h : fp.pads ≠ []) :
    (calcBoundsAndCenter fp).pads = fp.pads.map (fun p =>
      { p with
        x := p.x - (listMin (fp.pads.map (fun q => q.x))
                    + listMax (fp.pads.map (fun q => q.x))) / 2,
        y := p.y - (listMin (fp.pads.map (fun q => q.y))
                    + listMax (fp.pads.map (fun q => q.y))) / 2 }) := by
  unfold calcBoundsAndCenter
  rw [if_neg (by simp [List.isEmpty_iff, h]), if_neg (by simp [List.isEmpty_iff, h])]
  simp only [List.map_map]
  rfl

/-- Centering a padless footprint leaves the (empty) pad list empty. -/
theorem calcBoundsAndCenter_pads_nil (fp : EasyEdaFootprint) (h : fp.pads = []) :
    (calcBoundsAndCenter fp).pads = [] := by
  simp [calcBoundsAndCenter, h]
  split <;> simp [h]

/-- C2 (amended): for every footprint payload that parses to at least
one pad, it is the midpoint of the bounding box of the pad centers —
not the arithmetic-mean centroid the claim names — that conversion
drives exactly to the origin. -/
theorem c2_amended (shapes : List String) (componentName : String)
    (h : (fpResult shapes componentName).pads ≠ []) :
    padBBoxMid (fpResult shapes componentName) = (0, 0) := by
  have hp := fpResult_pads shapes componentName
  have hne : (parsedFp shapes componentName).pads ≠ [] := by
    intro h0
    exact h (by rw [hp, calcBoundsAndCenter_pads_nil _ h0])
  set fp := parsedFp shapes componentName with hfp
  obtain ⟨p0, ps, hps⟩ : ∃ p0 ps, fp.pads = p0 :: ps := by
    cases hl : fp.pads with
    | nil => exact absurd hl hne
    | cons a l => exact ⟨a, l, rfl⟩
  have hx : fp.pads.map (fun q => q.x) ≠ [] := by simp [hps]
  have hy : fp.pads.map (fun q => q.y) ≠ [] := by simp [hps]
  have hc := calcBoundsAndCenter_pads fp hne
  unfold padBBoxMid
  rw [hp, hc]
  have hmapx : (fp.pads.map (fun p =>
      ({ p with
        x := p.x - (listMin (fp.pads.map (fun q => q.x))
                    + listMax (fp.pads.map (fun q => q.x))) / 2,
        y := p.y - (listMin (fp.pads.map (fun q => q.y))
                    + listMax (fp.pads.map (fun q => q.y))) / 2 } : FootprintPad))).map
          (fun p => p.x)
      = (fp.pads.map (fun q => q.x)).map (fun v =>
          v - (listMin (fp.pads.map (fun q => q.x))
               + listMax (fp.pads.map (fun q => q.x))) / 2) := by
    simp [List.map_map]
  have hmapy : (fp.pads.map (fun p =>
      ({ p with
        x := p.x - (listMin (fp.pads.map (fun q => q.x))
                    + listMax (fp.pads.map (fun q => q.x))) / 2,
        y := p.y - (listMin (fp.pads.map (fun q => q.y))
                    + listMax (fp.pads.map (fun q => q.y))) / 2 } : FootprintPad))).map
          (fun p => p.y)
      = (fp.pads.map (fun q => q.y)).map (fun v =>
          v - (listMin (fp.pads.map (fun q => q.y))
               + listMax (fp.pads.map (fun q => q.y))) / 2) := by
    simp [List.map_map]
  rw [hmapx, hmapy, listMin_map_sub_of_ne _ _ hx, listMax_map_sub_of_ne _ _ hx,
    listMin_map_sub_of_ne _ _ hy, listMax_map_sub_of_ne _ _ hy]
  rw [Prod.mk.injEq]
  constructor <;> ring

unseal Rat.mul Rat.add Rat.sub Rat.inv Rat.ofScientific in
/-- C2 (counterexample): a three-pad footprint (source pad centers at
`x = 0, 2, 10`) converts to pads whose arithmetic-mean centroid of the
pad bounding boxes is `(-127/500, 0) = (-0.254 mm, 0)` — far outside
any floating-point tolerance of the origin. -/
theorem c2_cex :
    (fpResult ["PAD~ELLIPSE~0~0~4~4~1~0~1", "PAD~ELLIPSE~2~0~4~4~1~0~2",
               "PAD~ELLIPSE~10~0~4~4~1~0~3"] "F").pads.length = 3 ∧
    padCentroidMean (fpResult ["PAD~ELLIPSE~0~0~4~4~1~0~1",
        "PAD~ELLIPSE~2~0~4~4~1~0~2", "PAD~ELLIPSE~10~0~4~4~1~0~3"] "F")
      = (-(127 / 500), 0) ∧
    (1 / 1000 : ℚ) < 127 / 500 := by
  exact ⟨by decide, by decide, by decide⟩

unseal Rat.mul Rat.add Rat.sub Rat.inv Rat.ofScientific in
/-- C2 (witness): the amended statement evaluated on the same concrete
three-pad payload. -/
theorem c2_witness :
    padBBoxMid (fpResult ["PAD~ELLIPSE~0~0~4~4~1~0~1",
        "PAD~ELLIPSE~2~0~4~4~1~0~2", "PAD~ELLIPSE~10~0~4~4~1~0~3"] "F") = (0, 0) :=
  c2_amended ["PAD~ELLIPSE~0~0~4~4~1~0~1", "PAD~ELLIPSE~2~0~4~4~1~0~2",
    "PAD~ELLIPSE~10~0~4~4~1~0~3"] "F" (by decide)

/-! ## C4 — override precedence -/

/-- Reading back the key just written by `set_override`. -/
theorem getOverride_setOverride_self (st : OverrideStore) (lcscId : String)
    (offset rotation scale : Option (ℚ × ℚ × ℚ)) :
    getOverride (setOverride st lcscId offset rotation scale) lcscId
      = some
          ⟨updField offset ((alGet st (pyUpper lcscId)).getD ⟨none, none, none⟩).offset,
           updField rotation ((alGet st (pyUpper lcscId)).getD ⟨none, none, none⟩).rotation,
           updField scale ((alGet st (pyUpper lcscId)).getD ⟨none, none, none⟩).scale⟩ := by
  simp [getOverride, setOverride, alGet, alSet]

/-- Actions that keep a key's rotation intact do keep it, across any
sequence of actions. -/
theorem rotation_preserved (key : String) (r : ℚ × ℚ × ℚ) :
    ∀ (ops : List StoreOp) (st : OverrideStore),
      (∀ op ∈ ops, keepsRotation key op) →
      (∃ ov, st key = some ov ∧ ov.rotation = some r) →
      ∃ ov, (applyOps st ops) key = some ov ∧ ov.rotation = some r
  | [], _, _, h => h
  | op :: ops, st, hops, h => by
    refine rotation_preserved key r ops (applyOp st op)
      (fun o ho => hops o (List.mem_cons_of_mem _ ho)) ?_
    obtain ⟨ov, hov, hrot⟩ := h
    have hk := hops op (List.mem_cons_self _ _)
    cases op with
    | setOv lcscId o rot s =>
      rcases hk with hne | hnone
      · exact ⟨ov, by simp [applyOp, setOverride, alSet, alGet, Ne.symm hne, hov], hrot⟩
      · subst hnone
        by_cases he : pyUpper lcscId = key
        · exact ⟨⟨updField o ov.offset, ov.rotation, updField s ov.scale⟩,
            by simp [applyOp, setOverride, alSet, alGet, he, hov, updField], hrot⟩
        · exact ⟨ov, by simp [applyOp, setOverride, alSet, alGet, Ne.symm he, hov], hrot⟩
    | removeOv lcscId =>
      exact ⟨ov, by simp [applyOp, removeOverride, alErase, Ne.symm hk, hov], hrot⟩

/-- C4: `set_override(id, rotation=r)` makes `calculate_transform(id, fp)`
return rotation `r` for every footprint `fp`, and this persists across
any later actions that do not touch the id's rotation entry; when the
prior store held nothing under the id, the full transform is the default
`((0,0,0), r, (1,1,1))`; and after `remove_override(id)` the transform is
the geometry heuristic again. -/
theorem c4 (st : OverrideStore) (lcscId : String) (r : ℚ × ℚ × ℚ)
    (fp : EasyEdaFootprint) (ops : List StoreOp)
    (hops : ∀ op ∈ ops, keepsRotation (pyUpper lcscId) op) :
    ((calculateTransform
        (applyOps (setOverride st lcscId none (some r) none) ops) lcscId fp).2.1 = r) ∧
    (alGet st (pyUpper lcscId) = none →
      calculateTransform (setOverride st lcscId none (some r) none) lcscId fp
        = ((0, 0, 0), r, (1, 1, 1))) ∧
    (∀ st2 : OverrideStore,
      calculateTransform (removeOverride st2 lcscId) lcscId fp = heuristicTransform fp) := by
  refine ⟨?_, ?_, ?_⟩
  · have hstart : ∃ ov, (setOverride st lcscId none (some r) none) (pyUpper lcscId)
        = some ov ∧ ov.rotation = some r :=
      ⟨⟨updField none ((st (pyUpper lcscId)).getD ⟨none, none, none⟩).offset, some r,
        updField none ((st (pyUpper lcscId)).getD ⟨none, none, none⟩).scale⟩,
       by simp [setOverride, alSet, alGet, updField], rfl⟩
    obtain ⟨ov, hov, hrot⟩ := rotation_preserved (pyUpper lcscId) r ops _ hops hstart
    simp [calculateTransform, getOverride, alGet, hov, ovTruthy, hrot]
  · intro hnone
    have hnone2 : st (pyUpper lcscId) = none := hnone
    simp [calculateTransform, getOverride_setOverride_self, hnone2, alGet, updField,
      ovTruthy]
  · intro st2
    simp [calculateTransform, getOverride, removeOverride, alGet, alErase]

/-- C4 (witness): the instance of the claim — rotation `(0, 0, 45)` set
for id `c123` survives overrides on other ids and an unrelated removal,
defaults offset/scale, and is gone after `remove_override`. -/
theorem c4_witness :
    ((calculateTransform
        (applyOps (setOverride emptyStore "c123" none (some (0, 0, 45)) none)
          [StoreOp.setOv "x9" (some (1, 2, 3)) (some (0, 0, 90)) none,
           StoreOp.removeOv "other"]) "c123" (emptyFootprint "F")).2.1 = (0, 0, 45)) ∧
    (calculateTransform (setOverride emptyStore "c123" none (some (0, 0, 45)) none)
        "c123" (emptyFootprint "F") = ((0, 0, 0), (0, 0, 45), (1, 1, 1))) ∧
    (calculateTransform (removeOverride emptyStore "c123") "c123" (emptyFootprint "F")
      = heuristicTransform (emptyFootprint "F")) := by
  obtain ⟨h1, h2, h3⟩ :=
    c4 emptyStore "c123" (0, 0, 45) (emptyFootprint "F")
      [StoreOp.setOv "x9" (some (1, 2, 3)) (some (0, 0, 90)) none,
       StoreOp.removeOv "other"]
      (by
        intro op hop
        rcases hop with _ | ⟨_, hop2⟩
        · exact Or.inl (by decide)
        · rcases hop2 with _ | ⟨_, h⟩
          · exact (by decide : pyUpper "other" ≠ pyUpper "c123")
          · cases h)
  exact ⟨h1, h2 rfl, h3 emptyStore⟩

/-! ## C8 — pin-1 quadrant rotation heuristic -/

/-- With at least one pad and a located pin 1, the heuristic's rotation
is the quadrant classification of pin 1 against the pad-center bounding
box. -/
theorem heuristicTransform_rotationZ (fp : EasyEdaFootprint) (pin1 : FootprintPad)
    (hne : fp.pads ≠ []) (hpin : findPin1 fp = some pin1) :
    (heuristicTransform fp).2.1
      = (0, 0, rotationFromPin1 pin1
          ((listMin (fp.pads.map (fun p => p.x)) + listMax (fp.pads.map (fun p => p.x))) / 2)
          ((listMin (fp.pads.map (fun p => p.y)) + listMax (fp.pads.map (fun p => p.y))) / 2)
          (listMin (fp.pads.map (fun p => p.x))) (listMax (fp.pads.map (fun p => p.x)))
          (listMin (fp.pads.map (fun p => p.y))) (listMax (fp.pads.map (fun p => p.y)))) := by
  simp only [heuristicTransform]
  rw [if_neg (by simp [List.isEmpty_iff, hne])]
  simp [hpin]

unseal Rat.mul Rat.add Rat.sub Rat.inv Rat.ofScientific in
/-- C8 (counterexample): three pads with centers spanning `[0,10]²` and
pin 1 at `(7, 3)`.  Pin 1 sits strictly beyond 30% of the half-width and
half-height toward the top-right (source convention: smaller `y` is
"top"), so the claim requires rotation 90°, but the heuristic returns
0° — its dead band is 30% of the *full* width and height. -/
theorem c8_cex :
    (heuristicTransform { emptyFootprint "F" with pads :=
        [⟨"1", 7, 3, 1, 1, PadShape.circle, PadType.smd, 0, 0, "circle", ["F.Cu"], 0.25⟩,
         ⟨"2", 0, 0, 1, 1, PadShape.circle, PadType.smd, 0, 0, "circle", ["F.Cu"], 0.25⟩,
         ⟨"3", 10, 10, 1, 1, PadShape.circle, PadType.smd, 0, 0, "circle", ["F.Cu"], 0.25⟩] })
      = ((-5, -5, 0), (0, 0, 0), (1, 1, 1)) ∧
    findPin1 { emptyFootprint "F" with pads :=
        [⟨"1", 7, 3, 1, 1, PadShape.circle, PadType.smd, 0, 0, "circle", ["F.Cu"], 0.25⟩,
         ⟨"2", 0, 0, 1, 1, PadShape.circle, PadType.smd, 0, 0, "circle", ["F.Cu"], 0.25⟩,
         ⟨"3", 10, 10, 1, 1, PadShape.circle, PadType.smd, 0, 0, "circle", ["F.Cu"], 0.25⟩] }
      = some ⟨"1", 7, 3, 1, 1, PadShape.circle, PadType.smd, 0, 0, "circle", ["F.Cu"], 0.25⟩ ∧
    ((7 : ℚ) - (0 + 10) / 2 > (((10 : ℚ) - 0) / 2) * (3 / 10)) ∧
    ((3 : ℚ) - (0 + 10) / 2 < -((((10 : ℚ) - 0) / 2) * (3 / 10))) := by
  exact ⟨by decide, by decide, by decide, by decide⟩

/-- C8 (amended): the quadrant classification holds with a dead band of
30% of the *full* width and height of the pad-center bounding box (not
30% of the half-dimensions): top-left 0°, top-right 90°, bottom-right
180°, bottom-left 270° in the source convention (negative relative `y`
is "top"), and positions inside the band on either axis give 0°. -/
theorem c8_amended (fp : EasyEdaFootprint) (pin1 : FootprintPad)
    (minX maxX minY maxY relX relY : ℚ)
    (hne : fp.pads ≠ [])
    (hpin : findPin1 fp = some pin1)
    (hminX : minX = listMin (fp.pads.map (fun p => p.x)))
    (hmaxX : maxX = listMax (fp.pads.map (fun p => p.x)))
    (hminY : minY = listMin (fp.pads.map (fun p => p.y)))
    (hmaxY : maxY = listMax (fp.pads.map (fun p => p.y)))
    (hrelX : relX = pin1.x - (minX + maxX) / 2)
    (hrelY : relY = pin1.y - (minY + maxY) / 2)
    (hw : (0.1 : ℚ) ≤ maxX - minX)
    (hh : (0.1 : ℚ) ≤ maxY - minY) :
    ((relX < -((maxX - minX) * 0.3) ∧ relY < -((maxY - minY) * 0.3)) →
      (heuristicTransform fp).2.1 = (0, 0, 0)) ∧
    ((relX > (maxX - minX) * 0.3 ∧ relY < -((maxY - minY) * 0.3)) →
      (heuristicTransform fp).2.1 = (0, 0, 90)) ∧
    ((relX > (maxX - minX) * 0.3 ∧ relY > (maxY - minY) * 0.3) →
      (heuristicTransform fp).2.1 = (0, 0, 180)) ∧
    ((relX < -((maxX - minX) * 0.3) ∧ relY > (maxY - minY) * 0.3) →
      (heuristicTransform fp).2.1 = (0, 0, 270)) ∧
    ((|relX| ≤ (maxX - minX) * 0.3 ∨ |relY| ≤ (maxY - minY) * 0.3) →
      (heuristicTransform fp).2.1 = (0, 0, 0)) := by
  rw [heuristicTransform_rotationZ fp pin1 hne hpin,
    ← hminX, ← hmaxX, ← hminY, ← hmaxY]
  simp only [rotationFromPin1]
  rw [← hrelX, ← hrelY]
  rw [if_neg (by push_neg; constructor <;> linarith)]
  refine ⟨?_, ?_, ?_, ?_, ?_⟩
  · rintro ⟨hA, hB⟩
    rw [if_pos ⟨by linarith, by linarith⟩]
  · rintro ⟨hA, hB⟩
    rw [if_neg (by rintro ⟨h1, h2⟩; linarith), if_pos ⟨by linarith, by linarith⟩]
  · rintro ⟨hA, hB⟩
    rw [if_neg (by rintro ⟨h1, h2⟩; linarith),
      if_neg (by rintro ⟨h1, h2⟩; linarith),
      if_pos ⟨by linarith, by linarith⟩]
  · rintro ⟨hA, hB⟩
    rw [if_neg (by rintro ⟨h1, h2⟩; linarith),
      if_neg (by rintro ⟨h1, h2⟩; linarith),
      if_neg (by rintro ⟨h1, h2⟩; linarith),
      if_pos ⟨by linarith, by linarith⟩]
  · intro hband
    have hbx : relX ≤ (maxX - minX) * 0.3 ∧ -((maxX - minX) * 0.3) ≤ relX ∨
        relY ≤ (maxY - minY) * 0.3 ∧ -((maxY - minY) * 0.3) ≤ relY := by
      rcases hband with hx | hy
      · exact Or.inl ⟨(abs_le.mp hx).2, (abs_le.mp hx).1⟩
      · exact Or.inr ⟨(abs_le.mp hy).2, (abs_le.mp hy).1⟩
    rcases hbx with ⟨hx1, hx2⟩ | ⟨hy1, hy2⟩ <;>
      rw [if_neg (by rintro ⟨h1, h2⟩; linarith),
        if_neg (by rintro ⟨h1, h2⟩; linarith),
        if_neg (by rintro ⟨h1, h2⟩; linarith),
        if_neg (by rintro ⟨h1, h2⟩; linarith)]

unseal Rat.mul Rat.add Rat.sub Rat.inv Rat.ofScientific in
/-- C8 (witness): pin 1 at `(9, 1)` in the same `[0,10]²` pad box is
beyond 30% of the full width/height toward the top-right and yields
rotation 90°. -/
theorem c8_witness :
    (heuristicTransform { emptyFootprint "F" with pads :=
        [⟨"1", 9, 1, 1, 1, PadShape.circle, PadType.smd, 0, 0, "circle", ["F.Cu"], 0.25⟩,
         ⟨"2", 0, 0, 1, 1, PadShape.circle, PadType.smd, 0, 0, "circle", ["F.Cu"], 0.25⟩,
         ⟨"3", 10, 10, 1, 1, PadShape.circle, PadType.smd, 0, 0, "circle", ["F.Cu"], 0.25⟩] }).2.1
      = (0, 0, 90) := by
  refine (c8_amended
    { emptyFootprint "F" with pads :=
        [⟨"1", 9, 1, 1, 1, PadShape.circle, PadType.smd, 0, 0, "circle", ["F.Cu"], 0.25⟩,
         ⟨"2", 0, 0, 1, 1, PadShape.circle, PadType.smd, 0, 0, "circle", ["F.Cu"], 0.25⟩,
         ⟨"3", 10, 10, 1, 1, PadShape.circle, PadType.smd, 0, 0, "circle", ["F.Cu"], 0.25⟩] }
    ⟨"1", 9, 1, 1, 1, PadShape.circle, PadType.smd, 0, 0, "circle", ["F.Cu"], 0.25⟩
    0 10 0 10 4 (-4)
    (by decide) (by decide) (by decide) (by decide) (by decide) (by decide)
    (by decide) (by decide) (by decide) (by decide)).2.1 ⟨by decide, by decide⟩

/-! ## C7 — minimum stroke widths and font sizes -/

/-- Track segments always carry the floored stroke. -/
theorem trackSegments_style (kicadLayer : String) (sw : ℚ) :
    ∀ pts, ∀ l ∈ trackSegments kicadLayer sw pts, lineStyleOK l
  | a :: b :: rest, l, hl => by
    rcases List.mem_cons.mp hl with rfl | hl
    · exact Or.inl (le_max_right _ _)
    · exact trackSegments_style kicadLayer sw (b :: rest) l hl
  | [], _, hl => by cases hl
  | [_], _, hl => by cases hl

/-- Marking the last polyline keeps every stroke width. -/
theorem setLastFillOutline_stroke :
    ∀ (L : List SymbolPolyline), (∀ p ∈ L, (0.1 : ℚ) ≤ p.stroke_width) →
      ∀ p ∈ setLastFillOutline L, (0.1 : ℚ) ≤ p.stroke_width
  | [], _, _, hp => by cases hp
  | [q], h, p, hp => by
    rcases List.mem_cons.mp hp with rfl | hp
    · exact h q (List.mem_singleton_self q)
    · cases hp
  | q :: r :: L, h, p, hp => by
    rcases List.mem_cons.mp hp with rfl | hp
    · exact h p (List.mem_cons_self _ _)
    · exact setLastFillOutline_stroke (r :: L)
        (fun z hz => h z (List.mem_cons_of_mem _ hz)) p hp

/-- Every footprint-parser step preserves style conformance. -/
theorem parseShapeFp_style (fp : EasyEdaFootprint) (s : String) (h : fpStyleOK fp) :
    fpStyleOK (parseShapeFp fp s) := by
  obtain ⟨h1, h2, h3, h4, h5⟩ := h
  simp only [parseShapeFp]
  split
  · exact ⟨h1, h2, h3, h4, h5⟩
  split_ifs
  · -- PAD
    simp only [parsePad]
    split
    · exact ⟨h1, h2, h3, h4, h5⟩
    · exact ⟨h1, h2, h3, h4, h5⟩
  · -- TRACK
    simp only [parseTrack]
    split
    · exact ⟨h1, h2, h3, h4, h5⟩
    · refine ⟨?_, h2, h3, h4, h5⟩
      intro l hl
      rcases List.mem_append.mp hl with hl | hl
      · exact h1 l hl
      · exact trackSegments_style _ _ _ l hl
  · -- CIRCLE
    simp only [parseCircleFp]
    split
    · exact ⟨h1, h2, h3, h4, h5⟩
    · refine ⟨h1, ?_, h3, h4, h5⟩
      intro c hc
      rcases List.mem_append.mp hc with hc | hc
      · exact h2 c hc
      · obtain rfl := List.mem_singleton.mp hc
        exact le_max_right _ _
  · -- ARC
    simp only [parseArcFp]
    split
    · exact ⟨h1, h2, h3, h4, h5⟩
    split
    · exact ⟨h1, h2, h3, h4, h5⟩
    · refine ⟨h1, h2, ?_, h4, h5⟩
      intro a ha
      rcases List.mem_append.mp ha with ha | ha
      · exact h3 a ha
      · obtain rfl := List.mem_singleton.mp ha
        exact le_max_right _ _
  · -- RECT
    simp only [parseRectFp]
    split
    · exact ⟨h1, h2, h3, h4, h5⟩
    · refine ⟨?_, h2, h3, h4, h5⟩
      intro l hl
      rcases List.mem_append.mp hl with hl | hl
      · exact h1 l hl
      · simp only [List.mem_cons, List.not_mem_nil, or_false] at hl
        rcases hl with rfl | rfl | rfl | rfl <;> exact Or.inl (by norm_num)
  · -- SOLIDREGION
    simp only [parseSolidRegion]
    split
    · exact ⟨h1, h2, h3, h4, h5⟩
    split
    · exact ⟨h1, h2, h3, h4, h5⟩
    split
    · exact ⟨h1, h2, h3, h4, h5⟩
    · refine ⟨h1, h2, h3, ?_, h5⟩
      intro poly hpoly
      rcases List.mem_append.mp hpoly with hpoly | hpoly
      · exact h4 poly hpoly
      · obtain rfl := List.mem_singleton.mp hpoly
        exact (by norm_num : (0.1 : ℚ) ≤ 0.12)
  · -- TEXT
    simp only [parseTextFp]
    split
    · exact ⟨h1, h2, h3, h4, h5⟩
    · refine ⟨h1, h2, h3, h4, ?_⟩
      intro t ht
      rcases List.mem_append.mp ht with ht | ht
      · exact h5 t ht
      · obtain rfl := List.mem_singleton.mp ht
        exact ⟨le_max_right _ _, le_max_right _ _⟩
  · -- HOLE
    simp only [parseHoleFp]
    split
    · exact ⟨h1, h2, h3, h4, h5⟩
    · exact ⟨h1, h2, h3, h4, h5⟩
  · -- VIA
    simp only [parseVia]
    split
    · exact ⟨h1, h2, h3, h4, h5⟩
    split
    · exact ⟨h1, h2, h3, h4, h5⟩
    · exact ⟨h1, h2, h3, h4, h5⟩
  · -- unrecognized tag
    exact ⟨h1, h2, h3, h4, h5⟩

/-- Centering preserves style conformance (it moves geometry, never
strokes, fonts or layers). -/
theorem calcBoundsAndCenter_style (fp : EasyEdaFootprint) (h : fpStyleOK fp) :
    fpStyleOK (calcBoundsAndCenter fp) := by
  obtain ⟨h1, h2, h3, h4, h5⟩ := h
  simp only [calcBoundsAndCenter]
  split <;> (try split) <;>
    first
      | exact ⟨h1, h2, h3, h4, h5⟩
      | (refine ⟨?_, ?_, ?_, ?_, ?_⟩ <;> intro z hz <;>
          simp only [List.mem_map] at hz <;> obtain ⟨z0, hz0, rfl⟩ := hz <;>
          first
            | simpa [lineStyleOK] using h1 z0 hz0
            | exact h2 z0 hz0
            | exact h3 z0 hz0
            | exact h4 z0 hz0
            | exact h5 z0 hz0)

/-- Bounds computation preserves style conformance. -/
theorem calcBounds_style (fp : EasyEdaFootprint) (h : fpStyleOK fp) :
    fpStyleOK (calcBounds fp) := by
  obtain ⟨h1, h2, h3, h4, h5⟩ := h
  simp only [calcBounds]
  split
  · exact ⟨h1, h2, h3, h4, h5⟩
  · exact ⟨h1, h2, h3, h4, h5⟩

/-- Courtyard synthesis preserves style conformance: the four appended
lines are exactly the `F.CrtYd` / `0.05` exception. -/
theorem generateCourtyard_style (fp : EasyEdaFootprint) (h : fpStyleOK fp) :
    fpStyleOK (generateCourtyard fp) := by
  obtain ⟨h1, h2, h3, h4, h5⟩ := h
  unfold generateCourtyard
  split
  · exact ⟨h1, h2, h3, h4, h5⟩
  · refine ⟨?_, h2, h3, h4, h5⟩
    intro l hl
    rcases List.mem_append.mp hl with hl | hl
    · exact h1 l hl
    · simp only [courtyardLines, List.mem_cons, List.not_mem_nil, or_false] at hl
      rcases hl with rfl | rfl | rfl | rfl <;> exact Or.inr ⟨rfl, rfl⟩

/-- Every symbol-parser step preserves style conformance. -/
theorem parseShapeSym_style (sym : EasyEdaSymbol) (s : String) (h : symStyleOK sym) :
    symStyleOK (parseShapeSym sym s) := by
  obtain ⟨h1, h2, h3, h4, h5⟩ := h
  simp only [parseShapeSym]
  split
  · exact ⟨h1, h2, h3, h4, h5⟩
  split_ifs
  · -- P
    simp only [parsePin]
    split
    · exact ⟨h1, h2, h3, h4, h5⟩
    · exact ⟨h1, h2, h3, h4, h5⟩
  · -- R
    simp only [parseRectangleSym]
    split
    · exact ⟨h1, h2, h3, h4, h5⟩
    · refine ⟨?_, h2, h3, h4, h5⟩
      intro r hr
      rcases List.mem_append.mp hr with hr | hr
      · exact h1 r hr
      · obtain rfl := List.mem_singleton.mp hr
        exact le_max_right _ _
  · -- PL
    simp only [parsePolylineSym]
    split
    · exact ⟨h1, h2, h3, h4, h5⟩
    split
    · exact ⟨h1, h2, h3, h4, h5⟩
    · refine ⟨h1, ?_, h3, h4, h5⟩
      intro poly hpoly
      rcases List.mem_append.mp hpoly with hpoly | hpoly
      · exact h2 poly hpoly
      · obtain rfl := List.mem_singleton.mp hpoly
        exact le_max_right _ _
  · -- L
    simp only [parseLineSym]
    split
    · exact ⟨h1, h2, h3, h4, h5⟩
    · refine ⟨h1, ?_, h3, h4, h5⟩
      intro poly hpoly
      rcases List.mem_append.mp hpoly with hpoly | hpoly
      · exact h2 poly hpoly
      · obtain rfl := List.mem_singleton.mp hpoly
        exact (by norm_num : (0.1 : ℚ) ≤ 0.254)
  · -- C / E
    simp only [parseCircleSym]
    split
    · exact ⟨h1, h2, h3, h4, h5⟩
    · refine ⟨h1, h2, ?_, h4, h5⟩
      intro c hc
      rcases List.mem_append.mp hc with hc | hc
      · exact h3 c hc
      · obtain rfl := List.mem_singleton.mp hc
        exact (by norm_num : (0.1 : ℚ) ≤ 0.254)
  · -- A
    simp only [parseArcSym]
    split
    · exact ⟨h1, h2, h3, h4, h5⟩
    · refine ⟨h1, h2, h3, ?_, h5⟩
      intro a ha
      rcases List.mem_append.mp ha with ha | ha
      · exact h4 a ha
      · obtain rfl := List.mem_singleton.mp ha
        exact (by norm_num : (0.1 : ℚ) ≤ 0.254)
  · -- T
    simp only [parseTextSym]
    split
    · exact ⟨h1, h2, h3, h4, h5⟩
    split_ifs <;>
      first
        | exact ⟨h1, h2, h3, h4, h5⟩
        | (refine ⟨h1, h2, h3, h4, ?_⟩
           intro t ht
           rcases List.mem_append.mp ht with ht | ht
           · exact h5 t ht
           · obtain rfl := List.mem_singleton.mp ht
             exact le_max_right _ _)
  · -- PG
    simp only [parsePolygonSym]
    have hsub : symStyleOK (parsePolylineSym sym (pySplitChar '~' s)) := by
      simp only [parsePolylineSym]
      split
      · exact ⟨h1, h2, h3, h4, h5⟩
      split
      · exact ⟨h1, h2, h3, h4, h5⟩
      · refine ⟨h1, ?_, h3, h4, h5⟩
        intro poly hpoly
        rcases List.mem_append.mp hpoly with hpoly | hpoly
        · exact h2 poly hpoly
        · obtain rfl := List.mem_singleton.mp hpoly
          exact le_max_right _ _
    obtain ⟨g1, g2, g3, g4, g5⟩ := hsub
    split
    · exact ⟨g1, g2, g3, g4, g5⟩
    · exact ⟨g1, setLastFillOutline_stroke _ g2, g3, g4, g5⟩
  · -- unrecognized tag
    exact ⟨h1, h2, h3, h4, h5⟩

/-- The centering-offset computation preserves style conformance. -/
theorem calculateOffset_style (sym : EasyEdaSymbol) (h : symStyleOK sym) :
    symStyleOK (calculateOffset sym) := by
  obtain ⟨h1, h2, h3, h4, h5⟩ := h
  simp only [calculateOffset]
  split
  · exact ⟨h1, h2, h3, h4, h5⟩
  · exact ⟨h1, h2, h3, h4, h5⟩

/-- C7 (amended): every primitive of a converted symbol has stroke at
least 0.1 mm and every symbol text has font size at least 0.5 mm; every
primitive of a converted footprint has stroke at least 0.1 mm — except
the four synthesized courtyard lines, which carry exactly the 0.05 mm
stroke on `F.CrtYd` — and every footprint text has stroke at least 0.1
mm and font size at least 0.5 mm. -/
theorem c7_amended (shapes : List String) (componentName description category : String)
    (shapes2 : List String) (componentName2 : String) :
    symStyleOK (symResult shapes componentName description category) ∧
    fpStyleOK (fpResult shapes2 componentName2) := by
  constructor
  · unfold symResult
    apply calculateOffset_style
    apply foldl_preserve symStyleOK parseShapeSym parseShapeSym_style
    refine ⟨?_, ?_, ?_, ?_, ?_⟩ <;> intro z hz <;> cases hz
  · simp only [fpResult, midFp, parsedFp]
    split
    · apply calcBounds_style
      apply calcBoundsAndCenter_style
      apply foldl_preserve fpStyleOK parseShapeFp parseShapeFp_style
      refine ⟨?_, ?_, ?_, ?_, ?_⟩ <;> intro z hz <;> cases hz
    · apply generateCourtyard_style
      apply calcBounds_style
      apply calcBoundsAndCenter_style
      apply foldl_preserve fpStyleOK parseShapeFp parseShapeFp_style
      refine ⟨?_, ?_, ?_, ?_, ?_⟩ <;> intro z hz <;> cases hz

unseal Rat.mul Rat.add Rat.sub Rat.inv Rat.ofScientific in
/-- C7 (counterexample): converting a one-pad footprint synthesizes its
courtyard, and the four stored courtyard lines carry stroke `0.05 < 0.1`
— so the claim's unconditional 0.1 mm minimum fails on stored
primitives. -/
theorem c7_cex :
    ((fpResult ["PAD~ELLIPSE~0~0~4~4~1~0~1"] "F").lines.map
        (fun l => l.stroke_width)) = [0.05, 0.05, 0.05, 0.05] ∧
    ¬ ((0.1 : ℚ) ≤ 0.05) := by
  exact ⟨by decide, by decide⟩

end LcscGrabber
